import Mathlib

/-!
# Nexus: authentication and session core

A shallow embedding of the Go sources of the Nexus messaging backend
(`main.go`, `store/session`, `store/user`) and theorems about it.

Conventions of the embedding:

* a Go `error` value is a term of `Error`; `nil` is `none` in an `Option Error`,
  and a `(*T, error)` result is an `Except Error T`;
* a `time.Time` is an instant (nanoseconds since the zero time) with the UTC
  offset of the zone it is presented in; a `time.Duration` is a number of
  nanoseconds;
* everything outside the process (database, system clock, random source) is
  part of an explicit `World` that every operation receives and returns.
-/

namespace Nexus

/-! ## Errors -/

/-- Go error values that reach the program. The first is the sentinel of
`database/sql`, the next four are the sentinels declared in `session.go` and
`user.go`; `driver` is any other error reported by the database driver and
`lib` any error reported by another library (`crypto/rand`, `bcrypt`). -/
inductive Error where
  | ErrNoRows
  | ErrSessionNotFound
  | ErrSessionExpired
  | ErrUserNotFound
  | ErrDuplicateUsername
  | driver (msg : String)
  | lib (msg : String)
deriving DecidableEq, Repr

/-! ## Time -/

/-- A `time.Duration`: a count of nanoseconds. -/
abbrev Duration := Int

/-- The constant `time.Second`. -/
def Second : Duration := 1000000000

/-- The constant `time.Hour`. -/
def Hour : Duration := 3600 * Second

/-- A `time.Time`: the instant, in nanoseconds since the zero time
(January 1, year 1, 00:00:00 UTC), and the offset in seconds east of UTC of the
zone the value is presented in. Readings of the system clock are far from the
ends of the representable range, so the instant is an unbounded integer. -/
structure Time where
  nsec : Int
  offset : Int
deriving DecidableEq, Repr

namespace Time

/-- The zero value of `time.Time`. -/
def zero : Time := ⟨0, 0⟩

/-- The method `t.IsZero()`: the instant is the zero time. -/
def IsZero (t : Time) : Bool := decide (t.nsec = 0)

/-- The method `t.After(u)`: the instant `t` is later than the instant `u`. -/
def After (t u : Time) : Bool := decide (u.nsec < t.nsec)

/-- The method `t.Add(d)`. -/
def Add (t : Time) (d : Duration) : Time := { t with nsec := t.nsec + d }

end Time

/-! ## Records -/

namespace session

/-- The struct `session.Session`; also a row of the table `sessions`, whose
columns are `id, user_id, token, created_at, expires_at`. -/
structure Session where
  ID : String
  UserID : String
  Token : String
  CreatedAt : Time
  ExpiresAt : Time
deriving DecidableEq, Repr

end session

namespace user

/-- The struct `user.User`. -/
structure User where
  ID : String
  Username : String
  PasswordHash : String
  CreatedAt : Time
  LastSeen : Time
deriving DecidableEq, Repr

/-- A row of the table `users`, with columns
`id, username, password_hash, created_at, last_seen`; `last_seen` is nullable
(it is scanned into a `sql.NullTime`). -/
structure Row where
  id : String
  username : String
  password_hash : String
  created_at : Time
  last_seen : Option Time
deriving DecidableEq, Repr

end user

/-! ## The database behind `*sql.DB` -/

/-- The database reached through the `*sql.DB` handle shared by both stores:
the two tables, and the failures of the connection. `fault n = some msg` means
that the `n`-th statement sent to the database fails with the driver error
`msg`; `executed` counts the statements sent so far. `rowsFault = some msg`
means that the driver cannot report affected-row counts and
`Result.RowsAffected` fails with `msg`. -/
structure DB where
  users : List user.Row
  sessions : List session.Session
  fault : Nat → Option String
  executed : Nat
  rowsFault : Option String

namespace DB

/-- The failure, if any, of the statement about to be sent. -/
def pending (db : DB) : Option String := db.fault db.executed

/-- The database after one more statement has been sent. -/
def sent (db : DB) : DB := { db with executed := db.executed + 1 }

/-- Modelled from the spec: the table `sessions` (its schema is not among the
sources) answering
`SELECT id, user_id, token, created_at, expires_at FROM sessions WHERE token = $1`
through `QueryRowContext` and `Row.Scan`: the first matching row, `sql.ErrNoRows`
when no row matches, the driver error when the statement fails. -/
def scanSessionByToken (db : DB) (token : String) : Except Error session.Session × DB :=
  match db.pending with
  | some msg => (.error (.driver msg), db.sent)
  | none =>
    match db.sessions.find? (fun r => r.Token == token) with
    | none => (.error .ErrNoRows, db.sent)
    | some r => (.ok r, db.sent)

/-- Modelled from the spec: the table `sessions` (its schema is not among the
sources) executing
`INSERT INTO sessions (user_id, token, created_at, expires_at) VALUES ($1, $2, $3, $4)`:
the repository assigns the row's `id`, and it enforces the uniqueness of
`token`, refusing with a driver error a token that is already stored. -/
def insertSession (db : DB) (userID token : String) (createdAt expiresAt : Time) :
    Option Error × DB :=
  match db.pending with
  | some msg => (some (.driver msg), db.sent)
  | none =>
    if db.sessions.any (fun r => r.Token == token) then
      (some (.driver "duplicate key value violates unique constraint on sessions.token"), db.sent)
    else
      (none, { db.sent with
        sessions := db.sessions ++
          [⟨Nat.repr (db.sessions.length + 1), userID, token, createdAt, expiresAt⟩] })

/-- The driver error of a second row with a stored username. -/
def uniqueUsername : Error :=
  .driver "duplicate key value violates unique constraint on users.username"

/-- Modelled from the spec: the table `users` (its schema is not among the
sources) executing
`INSERT INTO users (id, username, password_hash, created_at, last_seen) VALUES ($1, $2, $3, $4, $5)`:
the repository enforces the uniqueness of `username`, refusing with a driver
error a row whose username is already stored and leaving the table as it was. -/
def insertUser (db : DB) (row : user.Row) : Option Error × DB :=
  match db.pending with
  | some msg => (some (.driver msg), db.sent)
  | none =>
    if db.users.any (fun r => r.username == row.username) then (some uniqueUsername, db.sent)
    else (none, { db.sent with users := db.users ++ [row] })

/-- Modelled from the spec: the table `users` answering
`SELECT id, username, password_hash, created_at, last_seen FROM users WHERE id = $1`
through `QueryRowContext` and `Row.Scan`. -/
def scanUserByID (db : DB) (id : String) : Except Error user.Row × DB :=
  match db.pending with
  | some msg => (.error (.driver msg), db.sent)
  | none =>
    match db.users.find? (fun r => r.id == id) with
    | none => (.error .ErrNoRows, db.sent)
    | some r => (.ok r, db.sent)

/-- Modelled from the spec: the table `users` answering
`SELECT id, username, password_hash, created_at, last_seen FROM users WHERE username = $1`
through `QueryRowContext` and `Row.Scan`. -/
def scanUserByUsername (db : DB) (username : String) : Except Error user.Row × DB :=
  match db.pending with
  | some msg => (.error (.driver msg), db.sent)
  | none =>
    match db.users.find? (fun r => r.username == username) with
    | none => (.error .ErrNoRows, db.sent)
    | some r => (.ok r, db.sent)

/-- A `sql.Result`, of which the sources use only `RowsAffected()`, an
`(int64, error)` pair. -/
structure Result where
  RowsAffected : Except Error Int

/-- Modelled from the spec: the table `users` executing
`UPDATE users SET last_seen = $1 WHERE id = $2`: every row with that id gets
the new `last_seen`, and the result reports how many rows there were. -/
def updateLastSeen (db : DB) (lastSeen : Time) (id : String) : Except Error Result × DB :=
  match db.pending with
  | some msg => (.error (.driver msg), db.sent)
  | none =>
    (.ok ⟨match db.rowsFault with
          | some msg => .error (.driver msg)
          | none => .ok (db.users.countP (fun r => r.id == id) : Nat)⟩,
     { db.sent with
       users := db.users.map
         (fun r => if r.id == id then { r with last_seen := some lastSeen } else r) })

end DB

/-! ## The world outside the process -/

/-- A byte. -/
abbrev Byte := Fin 256

/-- Everything outside the process: the database, the system clock (`clock n`
is the `n`-th reading of `time.Now()`, `ticks` the number of readings taken so
far) and the random source (`entropy n` is the outcome of the `n`-th
`rand.Read`: an error, or the stream of bytes that fills the buffer; `draws`
counts the reads so far). -/
structure World where
  db : DB
  clock : Nat → Time
  ticks : Nat
  entropy : Nat → Except Error (Nat → Byte)
  draws : Nat

/-- The call `time.Now()`. -/
def time.Now (w : World) : Time × World :=
  (w.clock w.ticks, { w with ticks := w.ticks + 1 })

/-! ## `store/session/sql_store.go` -/

namespace session

/-- The method `(*SQLStore).GetByToken`. -/
def SQLStore.GetByToken (token : String) (w : World) : Except Error Session × World :=
  match w.db.scanSessionByToken token with
  | (.error err, db) =>
    if err = Error.ErrNoRows then (.error Error.ErrSessionNotFound, { w with db := db })
    else (.error err, { w with db := db })
  | (.ok sess, db) =>
    let (now, w1) := time.Now { w with db := db }
    if now.After sess.ExpiresAt then (.error Error.ErrSessionExpired, w1)
    else (.ok sess, w1)

/-- The method `(*SQLStore).Create`. The caller's struct is updated in place
when `CreatedAt` is unset; no caller reads it afterwards, so only the error
and the world are returned. -/
def SQLStore.Create (sess : Session) (w : World) : Option Error × World :=
  let (sess, w) :=
    if sess.CreatedAt.IsZero then
      let (now, w1) := time.Now w
      ({ sess with CreatedAt := now }, w1)
    else (sess, w)
  let (err, db) := w.db.insertSession sess.UserID sess.Token sess.CreatedAt sess.ExpiresAt
  (err, { w with db := db })

/-- The interface `session.Store`: an implementation is any pair of
operations on the world. -/
structure Store where
  Create : Session → World → Option Error × World
  GetByToken : String → World → Except Error Session × World

/-- The constructor `session.NewSQLStore(db)`. -/
def NewSQLStore : Store := ⟨SQLStore.Create, SQLStore.GetByToken⟩

end session

/-! ## `store/user/sql_store.go` -/

namespace user

/-- The method `(*SQLStore).Create`. The caller's struct is updated in place
when `CreatedAt` is unset; no caller reads it afterwards, so only the error
and the world are returned. -/
def SQLStore.Create (user : User) (w : World) : Option Error × World :=
  let (user, w) :=
    if user.CreatedAt.IsZero then
      let (now, w1) := time.Now w
      ({ user with CreatedAt := now }, w1)
    else (user, w)
  let (err, db) := w.db.insertUser
    ⟨user.ID, user.Username, user.PasswordHash, user.CreatedAt, some user.LastSeen⟩
  match err with
  | some err => (some err, { w with db := db })
  | none => (none, { w with db := db })

/-- The scan of a row into a `User`, as both lookups do it: the four plain
columns, and `last_seen` through a `sql.NullTime` that leaves `LastSeen` at
its zero value when the column is null. -/
def scanned (r : Row) : User :=
  let user : User := ⟨r.id, r.username, r.password_hash, r.created_at, Time.zero⟩
  match r.last_seen with
  | some t => { user with LastSeen := t }
  | none => user

/-- The method `(*SQLStore).GetByID`. -/
def SQLStore.GetByID (id : String) (w : World) : Except Error User × World :=
  match w.db.scanUserByID id with
  | (.error err, db) =>
    if err = Error.ErrNoRows then (.error Error.ErrUserNotFound, { w with db := db })
    else (.error err, { w with db := db })
  | (.ok r, db) => (.ok (scanned r), { w with db := db })

/-- The method `(*SQLStore).GetByUsername`. -/
def SQLStore.GetByUsername (username : String) (w : World) : Except Error User × World :=
  match w.db.scanUserByUsername username with
  | (.error err, db) =>
    if err = Error.ErrNoRows then (.error Error.ErrUserNotFound, { w with db := db })
    else (.error err, { w with db := db })
  | (.ok r, db) => (.ok (scanned r), { w with db := db })

/-- The method `(*SQLStore).UpdateLastSeen`. -/
def SQLStore.UpdateLastSeen (id : String) (lastSeen : Time) (w : World) :
    Option Error × World :=
  match w.db.updateLastSeen lastSeen id with
  | (.error err, db) => (some err, { w with db := db })
  | (.ok result, db) =>
    match result.RowsAffected with
    | .error err => (some err, { w with db := db })
    | .ok rows =>
      if rows = 0 then (some Error.ErrUserNotFound, { w with db := db })
      else (none, { w with db := db })

/-- The interface `user.Store`: an implementation is any four operations on
the world. -/
structure Store where
  Create : User → World → Option Error × World
  GetByID : String → World → Except Error User × World
  GetByUsername : String → World → Except Error User × World
  UpdateLastSeen : String → Time → World → Option Error × World

/-- The constructor `user.NewSQLStore(db)`. -/
def NewSQLStore : Store :=
  ⟨SQLStore.Create, SQLStore.GetByID, SQLStore.GetByUsername, SQLStore.UpdateLastSeen⟩

end user

/-! ## Library functions called by `main.go` -/

namespace hex

/-- The constant `hextable` of `encoding/hex`. -/
def hextable : List Char := "0123456789abcdef".toList

/-- The loop of `hex.Encode`: byte `v` becomes `hextable[v>>4]` followed by
`hextable[v&0x0f]`. -/
def encode : List Byte → List Char
  | [] => []
  | v :: rest =>
    hextable.getD (v.val >>> 4) '0' :: hextable.getD (v.val &&& 0x0f) '0' :: encode rest

/-- The function `hex.EncodeToString`. -/
def EncodeToString (src : List Byte) : String := String.mk (encode src)

/-- The table `reverseHexTable` of `encoding/hex`: the value of a hexadecimal
digit of either case, nothing for any other character. -/
def fromHexChar (c : Char) : Option Nat :=
  if 48 ≤ c.toNat ∧ c.toNat ≤ 57 then some (c.toNat - 48)
  else if 97 ≤ c.toNat ∧ c.toNat ≤ 102 then some (c.toNat - 87)
  else if 65 ≤ c.toNat ∧ c.toNat ≤ 70 then some (c.toNat - 55)
  else none

/-- The loop of `hex.Decode`: each pair of digits gives the byte
`(a << 4) | b`; an invalid digit or an odd length is an error. -/
def decode : List Char → Option (List Byte)
  | [] => some []
  | [_] => none
  | p :: q :: rest =>
    match fromHexChar p, fromHexChar q with
    | some a, some b => (decode rest).map (fun bs => Fin.ofNat (a <<< 4 ||| b) :: bs)
    | _, _ => none

/-- The function `hex.DecodeString`. -/
def DecodeString (s : String) : Option (List Byte) := decode s.data

end hex

/-- The function `rand.Read` of `crypto/rand` on a buffer of `n` bytes: the
source fails, or it fills the whole buffer. -/
def rand.Read (n : Nat) (w : World) : Except Error (List Byte) × World :=
  match w.entropy w.draws with
  | .error err => (.error err, { w with draws := w.draws + 1 })
  | .ok stream => (.ok ((List.range n).map stream), { w with draws := w.draws + 1 })

namespace Time

/-- The seconds elapsed since the zero time on the clock face of the zone of
`t`: the whole seconds of the instant, moved by the offset. -/
def localSeconds (t : Time) : Int := t.nsec / 1000000000 + t.offset

/-- The leap years of the proleptic Gregorian calendar. -/
def isLeap (year : Int) : Bool :=
  decide (year % 4 = 0) && (decide (year % 100 ≠ 0) || decide (year % 400 = 0))

/-- The year and the zero-based day of the year of the day that lies `days`
days after January 1 of year 1, by cycles of 400, 100, 4 and 1 years. -/
def yearDay (days : Int) : Int × Int :=
  let n400 := days / 146097
  let d := days % 146097
  let n100 := min (d / 36524) 3
  let d := d - 36524 * n100
  let n4 := d / 1461
  let d := d - 1461 * n4
  let n1 := min (d / 365) 3
  (400 * n400 + 100 * n100 + 4 * n4 + n1 + 1, d - 365 * n1)

/-- The month and the day of the month of the zero-based day `yday` of a year. -/
def monthDay (leap : Bool) (yday : Int) : Int × Int :=
  let l : Int := if leap then 1 else 0
  if yday < 31 then (1, yday + 1)
  else if yday < 59 + l then (2, yday - 30)
  else if yday < 90 + l then (3, yday - 58 - l)
  else if yday < 120 + l then (4, yday - 89 - l)
  else if yday < 151 + l then (5, yday - 119 - l)
  else if yday < 181 + l then (6, yday - 150 - l)
  else if yday < 212 + l then (7, yday - 180 - l)
  else if yday < 243 + l then (8, yday - 211 - l)
  else if yday < 273 + l then (9, yday - 242 - l)
  else if yday < 304 + l then (10, yday - 272 - l)
  else if yday < 334 + l then (11, yday - 303 - l)
  else (12, yday - 333 - l)

/-- The methods `t.Date()` and `t.Clock()`: year, month, day, hour, minute and
second of `t` in its zone. -/
def fields (t : Time) : Int × Int × Int × Int × Int × Int :=
  let days := t.localSeconds / 86400
  let secs := t.localSeconds % 86400
  let (year, yday) := yearDay days
  let (month, day) := monthDay (isLeap year) yday
  (year, month, day, secs / 3600, secs % 3600 / 60, secs % 60)

/-- The decimal digit of a number below ten. -/
def digitChar (n : Nat) : Char := Char.ofNat (48 + n % 10)

/-- The `k` low-order decimal digits of `u`, the most significant first. -/
def fixedDigits : Nat → Nat → List Char
  | 0, _ => []
  | k + 1, u => fixedDigits k (u / 10) ++ [digitChar u]

/-- The function `appendInt` of package `time`: `x` in decimal, padded with
zeros on the left to `width` digits, after a minus sign when negative. -/
def appendInt (x : Int) (width : Nat) : List Char :=
  let u := x.natAbs
  (if x < 0 then ['-'] else []) ++
    (if u < 10 ^ width then fixedDigits width u else Nat.toDigits 10 u)

/-- The method `t.Format(layout)` for the layout `20060102150405`, the only
one in the sources: four digits of year, then two each of month, day, hour,
minute and second. -/
def Format (t : Time) : String :=
  let (year, month, day, hour, minute, second) := t.fields
  String.mk (appendInt year 4 ++ appendInt month 2 ++ appendInt day 2 ++
    appendInt hour 2 ++ appendInt minute 2 ++ appendInt second 2)

/-- The method `d.Seconds()` followed by the conversion `int(...)`. The
float64 is the whole seconds plus the remaining nanoseconds over `1e9`; for a
duration of a whole number of seconds below `2^53`, as every duration in the
sources is, that sum is exact. -/
def secondsInt (d : Duration) : Int := Int.tdiv d Second

end Time

/-! ## `main.go` -/

/-- The constant `sessionTTL`. -/
def sessionTTL : Duration := 24 * Hour

/-- The status codes of `net/http` used by the handlers. -/
def StatusOK : Nat := 200
/-- The constant `http.StatusCreated`. -/
def StatusCreated : Nat := 201
/-- The constant `http.StatusBadRequest`. -/
def StatusBadRequest : Nat := 400
/-- The constant `http.StatusUnauthorized`. -/
def StatusUnauthorized : Nat := 401
/-- The constant `http.StatusMethodNotAllowed`. -/
def StatusMethodNotAllowed : Nat := 405
/-- The constant `http.StatusConflict`. -/
def StatusConflict : Nat := 409
/-- The constant `http.StatusInternalServerError`. -/
def StatusInternalServerError : Nat := 500
/-- The constant `bcrypt.DefaultCost`. -/
def DefaultCost : Nat := 10

/-- The anonymous struct `req` that both handlers decode the body into. -/
structure Req where
  Username : String
  Password : String
deriving DecidableEq, Repr

/-- What a handler reads of an `*http.Request`: the method, and the outcome of
`json.NewDecoder(r.Body).Decode(&req)`, `none` when decoding returns an error. -/
structure Request where
  Method : String
  Body : Option Req
deriving DecidableEq, Repr

/-- What a handler writes to the `http.ResponseWriter`: `http.Error(w, msg, code)`,
or `w.WriteHeader(code)` alone, or the JSON object with the keys `token` and
`expires_in` under the content type `application/json`. -/
inductive Response where
  | error (msg : String) (code : Nat)
  | header (code : Nat)
  | json (token : String) (expires_in : Int)
deriving DecidableEq, Repr

/-- The status line of a response; a body written without `WriteHeader` goes
out with `200 OK`. -/
def Response.status : Response → Nat
  | .error _ code => code
  | .header code => code
  | .json _ _ => StatusOK

/-- The calls a handler makes to its collaborators, as they appear in the
sources: the two functions of `bcrypt`, the methods of the two stores and the
token generator. -/
inductive Call where
  | GenerateFromPassword (password : String) (cost : Nat)
  | CompareHashAndPassword (hash password : String)
  | userCreate (u : user.User)
  | userGetByUsername (username : String)
  | generateSessionToken
  | sessionCreate (s : session.Session)
deriving DecidableEq, Repr

/-- The collaborators of the handlers: the globals `userStore` and
`sessionStore`, of interface type, and package `bcrypt`, whose two functions
stand for their outcome in the run under consideration
(`CompareHashAndPassword` returns `nil`, here `none`, exactly on a match). -/
structure Env where
  userStore : user.Store
  sessionStore : session.Store
  GenerateFromPassword : String → Nat → Except Error String
  CompareHashAndPassword : String → String → Option Error

/-- The wiring of `main`: both stores are SQL stores on the same database. -/
def Env.sql (generate : String → Nat → Except Error String)
    (compare : String → String → Option Error) : Env :=
  ⟨user.NewSQLStore, session.NewSQLStore, generate, compare⟩

/-- The function `generateID`. -/
def generateID (w : World) : String × World :=
  let (now, w1) := time.Now w
  (now.Format, w1)

/-- The function `generateSessionToken`, returning the Go pair
`(string, error)`. -/
def generateSessionToken (w : World) : (String × Option Error) × World :=
  match rand.Read 32 w with
  | (.error err, w1) => (("", some err), w1)
  | (.ok bytes, w1) => ((hex.EncodeToString bytes, none), w1)

/-- The handler `handleRegister`: the response, the world afterwards and the
calls made, in order. Lines written to the log are not part of the result. -/
def handleRegister (env : Env) (r : Request) (w : World) : Response × World × List Call :=
  if r.Method ≠ "POST" then
    (.error "Method not allowed" StatusMethodNotAllowed, w, [])
  else
    match r.Body with
    | none => (.error "Invalid request body" StatusBadRequest, w, [])
    | some req =>
      if req.Username = "" ∨ req.Password = "" then
        (.error "Username and password are required" StatusBadRequest, w, [])
      else
        match env.GenerateFromPassword req.Password DefaultCost with
        | .error _ =>
          (.error "Internal server error" StatusInternalServerError, w,
            [.GenerateFromPassword req.Password DefaultCost])
        | .ok hashedBytes =>
          let (id, w1) := generateID w
          let (createdAt, w2) := time.Now w1
          let (lastSeen, w3) := time.Now w2
          let newUser : user.User := ⟨id, req.Username, hashedBytes, createdAt, lastSeen⟩
          let calls := [.GenerateFromPassword req.Password DefaultCost, .userCreate newUser]
          match env.userStore.Create newUser w3 with
          | (some err, w4) =>
            if err = Error.ErrDuplicateUsername then
              (.error "Username already exists" StatusConflict, w4, calls)
            else
              (.error "Failed to create user" StatusInternalServerError, w4, calls)
          | (none, w4) => (.header StatusCreated, w4, calls)

/-- The handler `handleLogin`: the response, the world afterwards and the
calls made, in order. Lines written to the log are not part of the result. -/
def handleLogin (env : Env) (r : Request) (w : World) : Response × World × List Call :=
  if r.Method ≠ "POST" then
    (.error "Method not allowed" StatusMethodNotAllowed, w, [])
  else
    match r.Body with
    | none => (.error "Invalid request body" StatusBadRequest, w, [])
    | some req =>
      if req.Username = "" ∨ req.Password = "" then
        (.error "Username and password are required" StatusBadRequest, w, [])
      else
        match env.userStore.GetByUsername req.Username w with
        | (.error err, w1) =>
          if err = Error.ErrUserNotFound then
            (.error "Invalid credentials" StatusUnauthorized, w1,
              [.userGetByUsername req.Username])
          else
            (.error "Internal server error" StatusInternalServerError, w1,
              [.userGetByUsername req.Username])
        | (.ok u, w1) =>
          match env.CompareHashAndPassword u.PasswordHash req.Password with
          | some _ =>
            (.error "Invalid credentials" StatusUnauthorized, w1,
              [.userGetByUsername req.Username,
               .CompareHashAndPassword u.PasswordHash req.Password])
          | none =>
            match generateSessionToken w1 with
            | ((_, some _), w2) =>
              (.error "Failed to create session" StatusInternalServerError, w2,
                [.userGetByUsername req.Username,
                 .CompareHashAndPassword u.PasswordHash req.Password,
                 .generateSessionToken])
            | ((token, none), w2) =>
              let (now, w3) := time.Now w2
              let sess : session.Session := ⟨"", u.ID, token, now, now.Add sessionTTL⟩
              let calls := [.userGetByUsername req.Username,
                .CompareHashAndPassword u.PasswordHash req.Password,
                .generateSessionToken, .sessionCreate sess]
              match env.sessionStore.Create sess w3 with
              | (some _, w4) =>
                (.error "Failed to create session" StatusInternalServerError, w4, calls)
              | (none, w4) => (.json token (Time.secondsInt sessionTTL), w4, calls)

/-! ## Worlds and records of the tests -/

/-- A database without failures holding the given tables. -/
def DB.healthy (users : List user.Row) (sessions : List session.Session) : DB :=
  ⟨users, sessions, fun _ => none, 0, none⟩

/-- A world around a database whose clock reads `now` at every reading and
whose random source is unavailable. -/
def World.still (db : DB) (now : Time) : World :=
  ⟨db, fun _ => now, 0, fun _ => .error (.lib "entropy unavailable"), 0⟩

/-- Noon of January 1, 2023, UTC: the `fixedTime` of the store tests. -/
def fixedTime : Time := ⟨63808171200 * 1000000000, 0⟩

/-- A session issued at `fixedTime` for one hour, as in `TestCreate`. -/
def hourSession : session.Session :=
  ⟨"session-1", "user-123", "token-abc", fixedTime, fixedTime.Add Hour⟩

/-- The world of a lookup made at the very instant `hourSession` expires. -/
def expiryWorld : World := World.still (DB.healthy [] [hourSession]) hourSession.ExpiresAt

/-- The world of a lookup made two hours after `hourSession` was issued. -/
def lateWorld : World := World.still (DB.healthy [] [hourSession]) (fixedTime.Add (2 * Hour))

/-- The row of a user registered at noon of January 1, 2023. -/
def aliceRow : user.Row :=
  ⟨"20230101120000", "alice", "hash:secret123", fixedTime, some fixedTime⟩

/-- A stand-in for `bcrypt.GenerateFromPassword` in concrete runs. -/
def toyGenerate (password : String) (_cost : Nat) : Except Error String :=
  .ok ("hash:" ++ password)

/-- A stand-in for `bcrypt.CompareHashAndPassword` in concrete runs: it accepts
exactly the hashes `toyGenerate` makes. -/
def toyCompare (hash password : String) : Option Error :=
  if hash = "hash:" ++ password then none
  else some (.lib "hashedPassword is not the hash of the given password")

/-- The world an hour after `alice` registered. -/
def aliceWorld : World := World.still (DB.healthy [aliceRow] []) (fixedTime.Add Hour)

/-- The world of a login an hour after `alice` registered, with a random
source that supplies the bytes 0, 1, 2, ... -/
def loginWorld : World :=
  ⟨DB.healthy [aliceRow] [], fun _ => fixedTime.Add Hour, 0, fun _ => .ok (fun i => Fin.ofNat i), 0⟩

/-- The token made of the bytes 0 to 31. -/
def countingToken : String :=
  "000102030405060708090a0b0c0d0e0f101112131415161718191a1b1c1d1e1f"

/-- The row of the store tests. -/
def testRow : user.Row := ⟨"user-123", "testuser", "hashedsecret", fixedTime, some fixedTime⟩

/-- The world of the store tests, a day after `fixedTime`. -/
def testWorld : World := World.still (DB.healthy [testRow] []) (fixedTime.Add (24 * Hour))

/-! ## Inverses of the calendar functions -/

namespace Time

/-- The zero-based day of the year of a day of a month: the inverse of
`monthDay`. -/
def ydayOf (leap : Bool) (month day : Int) : Int :=
  let l : Int := if leap then 1 else 0
  if month = 1 then day - 1
  else if month = 2 then day + 30
  else if month = 3 then day + 58 + l
  else if month = 4 then day + 89 + l
  else if month = 5 then day + 119 + l
  else if month = 6 then day + 150 + l
  else if month = 7 then day + 180 + l
  else if month = 8 then day + 211 + l
  else if month = 9 then day + 242 + l
  else if month = 10 then day + 272 + l
  else if month = 11 then day + 303 + l
  else day + 333 + l

/-- The days from January 1 of year 1 to a day of a year: the inverse of
`yearDay`. -/
def daysOf (year yday : Int) : Int :=
  365 * (year - 1) + (year - 1) / 4 - (year - 1) / 100 + (year - 1) / 400 + yday

end Time

/-- A world whose clock advances by a tenth of a second at each reading,
starting at `fixedTime`, around an empty database. -/
def burstWorld : World :=
  ⟨DB.healthy [] [], fun n => ⟨fixedTime.nsec + n * 100000000, 0⟩, 0,
    fun _ => .error (.lib "entropy unavailable"), 0⟩

/-- The world of `loginWorld` on a connection whose first statement fails. -/
def downWorld : World :=
  { loginWorld with
    db := { loginWorld.db with
      fault := fun n => if n = 0 then some "connection refused" else none } }

/-- The world of `loginWorld` on a connection that answers the first
statement and fails on the second. -/
def flakyWorld : World :=
  { loginWorld with
    db := { loginWorld.db with
      fault := fun n => if n = 1 then some "connection reset by peer" else none } }

/-! ## Theorems -/

/-! ### Session lookup -/

/-- C1, as stated, fails: looked up at the instant equal to its `expires_at`,
a stored session is returned successfully. -/
theorem GetByToken_succeeds_at_expiry :
    (session.SQLStore.GetByToken "token-abc" expiryWorld).1 = .ok hourSession ∧
      expiryWorld.clock expiryWorld.ticks = hourSession.ExpiresAt := by
  constructor
  · rfl
  · rfl

/-- C1, amended: `GetByToken` returns a session successfully if and only if the
query executes, that session is the row with the token, and the clock reading
is not after the row's `expires_at`, so that the instant `expires_at` itself
is still valid; it returns `ErrSessionExpired` if and only if the query
executes and the row with the token has an `expires_at` strictly before the
clock reading; it returns `ErrSessionNotFound` if and only if the query
executes and no row has the token; and a query that fails returns the
driver's error. -/
theorem GetByToken_outcome_iff (token : String) (w : World) :
    (∀ s, (session.SQLStore.GetByToken token w).1 = .ok s ↔
      w.db.pending = none ∧
      w.db.sessions.find? (fun r => r.Token == token) = some s ∧
      (w.clock w.ticks).nsec ≤ s.ExpiresAt.nsec) ∧
    ((session.SQLStore.GetByToken token w).1 = .error Error.ErrSessionExpired ↔
      w.db.pending = none ∧
      ∃ r, w.db.sessions.find? (fun r => r.Token == token) = some r ∧
        r.ExpiresAt.nsec < (w.clock w.ticks).nsec) ∧
    ((session.SQLStore.GetByToken token w).1 = .error Error.ErrSessionNotFound ↔
      w.db.pending = none ∧
      w.db.sessions.find? (fun r => r.Token == token) = none) ∧
    (∀ msg, w.db.pending = some msg →
      (session.SQLStore.GetByToken token w).1 = .error (Error.driver msg)) := by
  unfold session.SQLStore.GetByToken DB.scanSessionByToken
  cases hp : w.db.pending with
  | some msg => simp
  | none =>
    cases hf : w.db.sessions.find? (fun r => r.Token == token) with
    | none => simp
    | some r =>
      by_cases ha : (w.clock w.ticks).After r.ExpiresAt = true
      · have hlt : r.ExpiresAt.nsec < (w.clock w.ticks).nsec := by
          simpa [Time.After] using ha
        simp [time.Now, ha, hlt]
      · have hlt : ¬ r.ExpiresAt.nsec < (w.clock w.ticks).nsec := by
          simpa [Time.After] using ha
        simp [time.Now, ha, hlt]
        omega

/-- C1, amended, on three lookups of the stored token: at the instant of
expiry the session is returned, two hours after issue the answer is
`ErrSessionExpired`, and on a connection that is down it is the driver's
error. -/
theorem GetByToken_outcome_iff_witness :
    (session.SQLStore.GetByToken "token-abc" expiryWorld).1 = .ok hourSession ∧
    (session.SQLStore.GetByToken "token-abc" lateWorld).1
      = .error Error.ErrSessionExpired ∧
    downWorld.db.pending = some "connection refused" ∧
    (session.SQLStore.GetByToken "token-abc" downWorld).1
      = .error (Error.driver "connection refused") :=
  ⟨((GetByToken_outcome_iff "token-abc" expiryWorld).1 hourSession).mpr
      ⟨rfl, rfl, by decide⟩,
    (GetByToken_outcome_iff "token-abc" lateWorld).2.1.mpr ⟨rfl, hourSession, rfl, by decide⟩,
    rfl,
    (GetByToken_outcome_iff "token-abc" downWorld).2.2.2 "connection refused" rfl⟩

/-- C2: on a connection that answers, `GetByToken` returns `ErrSessionNotFound`
when no row has the token and `ErrSessionExpired` when the row with the token
has an `expires_at` before the clock reading; the two errors differ; and a row
with `expires_at` one hour after `created_at`, looked up two hours after
`created_at`, gives `ErrSessionExpired` and no session. -/
theorem GetByToken_classifies (token : String) (w : World) (h : w.db.pending = none) :
    ((∀ r ∈ w.db.sessions, r.Token ≠ token) →
        (session.SQLStore.GetByToken token w).1 = .error Error.ErrSessionNotFound) ∧
    (∀ r, w.db.sessions.find? (fun r => r.Token == token) = some r →
        (w.clock w.ticks).After r.ExpiresAt = true →
        (session.SQLStore.GetByToken token w).1 = .error Error.ErrSessionExpired) ∧
    Error.ErrSessionNotFound ≠ Error.ErrSessionExpired ∧
    (∀ r, w.db.sessions.find? (fun r => r.Token == token) = some r →
        r.ExpiresAt = r.CreatedAt.Add Hour → w.clock w.ticks = r.CreatedAt.Add (2 * Hour) →
        (session.SQLStore.GetByToken token w).1 = .error Error.ErrSessionExpired ∧
        ∀ s, (session.SQLStore.GetByToken token w).1 ≠ .ok s) := by
  have expired : ∀ r, w.db.sessions.find? (fun r => r.Token == token) = some r →
      (w.clock w.ticks).After r.ExpiresAt = true →
      (session.SQLStore.GetByToken token w).1 = .error Error.ErrSessionExpired := by
    intro r hf ha
    simp [session.SQLStore.GetByToken, DB.scanSessionByToken, h, hf, time.Now, ha]
  refine ⟨?_, expired, by decide, ?_⟩
  · intro hno
    have hf : w.db.sessions.find? (fun r => r.Token == token) = none := by
      rw [List.find?_eq_none]
      intro r hr
      simpa using hno r hr
    simp [session.SQLStore.GetByToken, DB.scanSessionByToken, h, hf]
  · intro r hf he hc
    have ha : (w.clock w.ticks).After r.ExpiresAt = true := by
      simp [Time.After, Time.Add, he, hc, Hour, Second]
    have hx := expired r hf ha
    refine ⟨hx, ?_⟩
    intro s hs
    rw [hx] at hs
    cases hs

/-- C2 at the scenario of `TestGetByTokenExpired`: the connection of
`lateWorld` answers, its row with the token expired an hour before the
lookup, and the lookup gives `ErrSessionExpired`. -/
theorem GetByToken_classifies_witness :
    lateWorld.db.pending = none ∧
      (session.SQLStore.GetByToken "token-abc" lateWorld).1 = .error Error.ErrSessionExpired ∧
      (session.SQLStore.GetByToken "no-such-token" lateWorld).1
        = .error Error.ErrSessionNotFound :=
  ⟨rfl, ((GetByToken_classifies "token-abc" lateWorld rfl).2.2.2 hourSession rfl rfl rfl).1,
    (GetByToken_classifies "no-such-token" lateWorld rfl).1 (by decide)⟩

/-! ### Lookup of a user by name -/

theorem GetByUsername_absent (username : String) (w : World) (h : w.db.pending = none)
    (hf : w.db.users.find? (fun r => r.username == username) = none) :
    user.SQLStore.GetByUsername username w
      = (.error Error.ErrUserNotFound, { w with db := w.db.sent }) := by
  simp [user.SQLStore.GetByUsername, DB.scanUserByUsername, h, hf]

theorem GetByUsername_present (username : String) (w : World) (r : user.Row)
    (h : w.db.pending = none)
    (hf : w.db.users.find? (fun r => r.username == username) = some r) :
    user.SQLStore.GetByUsername username w
      = (.ok (user.scanned r), { w with db := w.db.sent }) := by
  simp [user.SQLStore.GetByUsername, DB.scanUserByUsername, h, hf]

theorem scanned_PasswordHash (r : user.Row) :
    (user.scanned r).PasswordHash = r.password_hash := by
  unfold user.scanned
  cases r.last_seen <;> rfl

/-! ### Login -/

/-- C3: with the SQL user store on a connection that answers, a POST login
with non-empty fields for a username that has no row, and one for a username
that has a row whose stored hash the password fails to verify against, get
the same response: `http.Error` with the body `Invalid credentials` and the
status 401. -/
theorem handleLogin_hides_existence (env : Env) (hs : env.userStore = user.NewSQLStore)
    (n1 p1 n2 p2 : String) (w1 w2 : World) (u : user.Row)
    (hn1 : n1 ≠ "") (hp1 : p1 ≠ "") (hn2 : n2 ≠ "") (hp2 : p2 ≠ "")
    (h1 : w1.db.pending = none) (h2 : w2.db.pending = none)
    (habsent : ∀ r ∈ w1.db.users, r.username ≠ n1)
    (hpresent : w2.db.users.find? (fun r => r.username == n2) = some u)
    (hbad : env.CompareHashAndPassword u.password_hash p2 ≠ none) :
    (handleLogin env ⟨"POST", some ⟨n1, p1⟩⟩ w1).1
      = (handleLogin env ⟨"POST", some ⟨n2, p2⟩⟩ w2).1 ∧
    (handleLogin env ⟨"POST", some ⟨n1, p1⟩⟩ w1).1
      = .error "Invalid credentials" StatusUnauthorized ∧
    (handleLogin env ⟨"POST", some ⟨n1, p1⟩⟩ w1).1.status = 401 := by
  have hf : w1.db.users.find? (fun r => r.username == n1) = none := by
    rw [List.find?_eq_none]
    intro r hr
    simpa using habsent r hr
  have e1 : (handleLogin env ⟨"POST", some ⟨n1, p1⟩⟩ w1).1
      = .error "Invalid credentials" StatusUnauthorized := by
    simp [handleLogin, hs, user.NewSQLStore, GetByUsername_absent n1 w1 h1 hf, hn1, hp1]
  have e2 : (handleLogin env ⟨"POST", some ⟨n2, p2⟩⟩ w2).1
      = .error "Invalid credentials" StatusUnauthorized := by
    obtain ⟨e, he⟩ := Option.ne_none_iff_exists'.mp hbad
    simp [handleLogin, hs, user.NewSQLStore, GetByUsername_present n2 w2 u h2 hpresent, hn2, hp2,
      scanned_PasswordHash, he]
  exact ⟨e1.trans e2.symm, e1, by rw [e1]; rfl⟩

/-- C3 at the scenario of the spec: `bob` never registered, `alice` did and
the password `wrong` does not verify; both logins get the same response. -/
theorem handleLogin_hides_existence_witness :
    aliceWorld.db.pending = none ∧
    (∀ r ∈ aliceWorld.db.users, r.username ≠ "bob") ∧
    aliceWorld.db.users.find? (fun r => r.username == "alice") = some aliceRow ∧
    toyCompare aliceRow.password_hash "wrong" ≠ none ∧
    (handleLogin (Env.sql toyGenerate toyCompare) ⟨"POST", some ⟨"bob", "x"⟩⟩ aliceWorld).1
      = (handleLogin (Env.sql toyGenerate toyCompare)
          ⟨"POST", some ⟨"alice", "wrong"⟩⟩ aliceWorld).1 :=
  ⟨rfl, by decide, rfl, by decide,
    (handleLogin_hides_existence (Env.sql toyGenerate toyCompare) rfl "bob" "x" "alice" "wrong"
      aliceWorld aliceWorld aliceRow (by decide) (by decide) (by decide) (by decide) rfl rfl
      (by decide) rfl (by decide)).1⟩

/-! ### Registration -/

theorem insertUser_error_is_driver (db : DB) (row : user.Row) (e : Error)
    (h : (db.insertUser row).1 = some e) : ∃ msg, e = Error.driver msg := by
  unfold DB.insertUser at h
  cases hp : db.pending with
  | some msg =>
    rw [hp] at h
    exact ⟨msg, by simpa using h.symm⟩
  | none =>
    rw [hp] at h
    by_cases hd : db.users.any (fun r => r.username == row.username) = true
    · rw [if_pos hd] at h
      exact ⟨_, by simpa [DB.uniqueUsername] using h.symm⟩
    · rw [if_neg hd] at h
      simp at h

theorem Create_fst (u : user.User) (w : World) :
    ∃ (row : user.Row) (db : DB), (user.SQLStore.Create u w).1 = (db.insertUser row).1 := by
  unfold user.SQLStore.Create
  by_cases hz : u.CreatedAt.IsZero = true
  · refine ⟨⟨u.ID, u.Username, u.PasswordHash, (time.Now w).1, some u.LastSeen⟩,
      (time.Now w).2.db, ?_⟩
    simp only [hz, if_true]
    split <;> simp_all
  · refine ⟨⟨u.ID, u.Username, u.PasswordHash, u.CreatedAt, some u.LastSeen⟩, w.db, ?_⟩
    simp only [hz]
    split <;> simp_all

/-- C4, the code at the failing input: with `alice` stored and the backend
refusing a second `alice`, `SQLStore.Create` returns the driver's error as it
is, not `ErrDuplicateUsername`; `handleRegister` therefore answers 500 with
`Failed to create user`, not 409; the stored row is unchanged. No input makes
`SQLStore.Create` return `ErrDuplicateUsername`. -/
theorem Create_duplicate_not_mapped :
    (user.SQLStore.Create ⟨"20230101130000", "alice", "hash:other", fixedTime, fixedTime⟩
        aliceWorld).1 = some DB.uniqueUsername ∧
    DB.uniqueUsername ≠ Error.ErrDuplicateUsername ∧
    (handleRegister (Env.sql toyGenerate toyCompare)
        ⟨"POST", some ⟨"alice", "other"⟩⟩ aliceWorld).1
      = .error "Failed to create user" StatusInternalServerError ∧
    (handleRegister (Env.sql toyGenerate toyCompare)
        ⟨"POST", some ⟨"alice", "other"⟩⟩ aliceWorld).2.1.db.users = [aliceRow] ∧
    (∀ u w, (user.SQLStore.Create u w).1 ≠ some Error.ErrDuplicateUsername) := by
  refine ⟨rfl, by decide, rfl, rfl, ?_⟩
  intro u w h
  obtain ⟨row, db, hc⟩ := Create_fst u w
  rw [hc] at h
  obtain ⟨msg, hm⟩ := insertUser_error_is_driver db row _ h
  cases hm

/-! ### Session lifetime -/

theorem GetByUsername_world (username : String) (w : World) :
    (user.SQLStore.GetByUsername username w).2 = { w with db := w.db.sent } := by
  unfold user.SQLStore.GetByUsername DB.scanUserByUsername
  cases w.db.pending with
  | some msg => simp
  | none =>
    cases w.db.users.find? (fun r => r.username == username) with
    | none => simp
    | some r => simp

theorem generateSessionToken_world (w : World) :
    (generateSessionToken w).2 = { w with draws := w.draws + 1 } := by
  unfold generateSessionToken rand.Read
  cases w.entropy w.draws with
  | error e => simp
  | ok f => simp

theorem insertSession_row (db : DB) (userID token : String) (createdAt expiresAt : Time)
    (h : (db.insertSession userID token createdAt expiresAt).1 = none) :
    (db.insertSession userID token createdAt expiresAt).2.sessions
      = db.sessions ++
        [⟨Nat.repr (db.sessions.length + 1), userID, token, createdAt, expiresAt⟩] := by
  unfold DB.insertSession at h ⊢
  cases hp : db.pending with
  | some msg => rw [hp] at h; simp at h
  | none =>
    rw [hp] at h
    by_cases hd : db.sessions.any (fun r => r.Token == token) = true
    · rw [if_pos hd] at h; simp at h
    · simp only [hd]
      rfl

theorem session_Create_row (sess : session.Session) (w : World)
    (h : (session.SQLStore.Create sess w).1 = none) :
    ∃ row, (session.SQLStore.Create sess w).2.db.sessions = w.db.sessions ++ [row] ∧
      row.UserID = sess.UserID ∧ row.Token = sess.Token ∧
      row.ExpiresAt = sess.ExpiresAt ∧
      (sess.CreatedAt.IsZero = false → row.CreatedAt = sess.CreatedAt) := by
  unfold session.SQLStore.Create at h ⊢
  by_cases hz : sess.CreatedAt.IsZero = true
  · simp only [hz, if_true] at h ⊢
    exact ⟨_, insertSession_row _ _ _ _ _ h, rfl, rfl, rfl,
      fun hf => by cases hf⟩
  · simp only [hz] at h ⊢
    exact ⟨_, insertSession_row _ _ _ _ _ h, rfl, rfl, rfl, fun _ => rfl⟩

/-- C5: a login through the SQL user store that answers with a token reports
`expires_in = 86400`, the 24-hour `sessionTTL` in whole seconds, and the world
it leaves is the one `sessionStore.Create` returned, without error, for a
session with that token whose `CreatedAt` is the login's clock reading and
whose `ExpiresAt` is `CreatedAt` plus exactly `sessionTTL`, that is, plus
`expires_in` seconds; that call is the last the login made. With the SQL
session store the table of sessions thereby gets one row with that token and
that `expires_at`, and `created_at` the clock reading. -/
theorem handleLogin_lifetime (env : Env) (hs : env.userStore = user.NewSQLStore)
    (r : Request) (w : World) (token : String) (expires_in : Int)
    (h : (handleLogin env r w).1 = .json token expires_in) :
    expires_in = 86400 ∧ expires_in * Second = sessionTTL ∧
    ∃ sess : session.Session,
      env.sessionStore.Create sess
          { w with db := w.db.sent, ticks := w.ticks + 1, draws := w.draws + 1 }
        = (none, (handleLogin env r w).2.1) ∧
      (handleLogin env r w).2.2.getLast? = some (.sessionCreate sess) ∧
      sess.Token = token ∧
      sess.CreatedAt = w.clock w.ticks ∧
      sess.ExpiresAt = sess.CreatedAt.Add sessionTTL ∧
      sess.ExpiresAt.nsec = sess.CreatedAt.nsec + expires_in * 1000000000 ∧
      (env.sessionStore = session.NewSQLStore →
        ∃ row, (handleLogin env r w).2.1.db.sessions = w.db.sessions ++ [row] ∧
          row.Token = token ∧
          row.ExpiresAt = (w.clock w.ticks).Add sessionTTL ∧
          ((w.clock w.ticks).IsZero = false →
            row.CreatedAt = w.clock w.ticks ∧
            row.ExpiresAt = row.CreatedAt.Add sessionTTL)) := by
  by_cases hm : r.Method = "POST"
  · cases hb : r.Body with
    | none => simp [handleLogin, hm, hb] at h
    | some req =>
      by_cases he : req.Username = "" ∨ req.Password = ""
      · simp [handleLogin, hm, hb, he] at h
      · have hw1 := GetByUsername_world req.Username w
        cases hl : user.SQLStore.GetByUsername req.Username w with
        | mk res w1 =>
          rw [hl] at hw1
          simp only at hw1
          cases res with
          | error err =>
            by_cases hx : err = Error.ErrUserNotFound <;>
              simp [handleLogin, hm, hb, he, hs, user.NewSQLStore, hl, hx] at h
          | ok u =>
            cases hc : env.CompareHashAndPassword u.PasswordHash req.Password with
            | some e => simp [handleLogin, hm, hb, he, hs, user.NewSQLStore, hl, hc] at h
            | none =>
              have hw2 := generateSessionToken_world w1
              cases hg : generateSessionToken w1 with
              | mk tk w2 =>
                rw [hg] at hw2
                simp only at hw2
                obtain ⟨tok, terr⟩ := tk
                cases terr with
                | some e =>
                  simp [handleLogin, hm, hb, he, hs, user.NewSQLStore, hl, hc, hg] at h
                | none =>
                  cases hsc : env.sessionStore.Create
                      ⟨"", u.ID, tok, (time.Now w2).1, (time.Now w2).1.Add sessionTTL⟩
                      (time.Now w2).2 with
                  | mk cerr w4 =>
                    cases cerr with
                    | some e =>
                      simp [handleLogin, hm, hb, he, hs, user.NewSQLStore, hl, hc, hg, hsc] at h
                    | none =>
                      have hout : handleLogin env r w =
                          (Response.json tok (Time.secondsInt sessionTTL), w4,
                           [.userGetByUsername req.Username,
                            .CompareHashAndPassword u.PasswordHash req.Password,
                            .generateSessionToken,
                            .sessionCreate
                              ⟨"", u.ID, tok, (time.Now w2).1,
                                (time.Now w2).1.Add sessionTTL⟩]) := by
                        simp [handleLogin, hm, hb, he, hs, user.NewSQLStore, hl, hc, hg, hsc]
                      rw [hout] at h ⊢
                      simp only [Response.json.injEq] at h
                      obtain ⟨h1, h2⟩ := h
                      subst h1
                      subst h2
                      have hworld : (time.Now w2).2
                          = { w with db := w.db.sent, ticks := w.ticks + 1,
                                     draws := w.draws + 1 } := by
                        rw [hw2, hw1]; rfl
                      have hnow : (time.Now w2).1 = w.clock w.ticks := by
                        rw [hw2, hw1]; rfl
                      rw [hworld, hnow] at hsc
                      rw [hnow]
                      refine ⟨by decide, by decide,
                        ⟨"", u.ID, tok, w.clock w.ticks, (w.clock w.ticks).Add sessionTTL⟩,
                        hsc, rfl, rfl, rfl, rfl, ?_, ?_⟩
                      · show (w.clock w.ticks).nsec + sessionTTL
                          = (w.clock w.ticks).nsec + Time.secondsInt sessionTTL * 1000000000
                        have httl : (sessionTTL : Int)
                            = Time.secondsInt sessionTTL * 1000000000 := by decide
                        exact congrArg (fun d : Int => (w.clock w.ticks).nsec + d) httl
                      · intro hss
                        rw [hss] at hsc
                        have hrow := session_Create_row
                          ⟨"", u.ID, tok, w.clock w.ticks, (w.clock w.ticks).Add sessionTTL⟩
                          { w with db := w.db.sent, ticks := w.ticks + 1, draws := w.draws + 1 }
                          (by
                            have := congrArg Prod.fst hsc
                            simpa [session.NewSQLStore] using this)
                        have hfin := congrArg Prod.snd hsc
                        simp only [session.NewSQLStore] at hfin
                        rw [hfin] at hrow
                        obtain ⟨row, hr1, -, hr3, hr4, hr5⟩ := hrow
                        refine ⟨row, hr1, hr3, hr4, ?_⟩
                        intro hnz
                        have hc5 := hr5 hnz
                        simp only at hc5
                        exact ⟨hc5, by rw [hr4, hc5]⟩
  · simp [handleLogin, hm] at h

/-- C5 at the scenario of the spec: `alice` logs in with her password, gets a
token with `expires_in = 86400`, and the table of sessions holds the row
issued at the clock reading for 24 hours. -/
theorem handleLogin_lifetime_witness :
    (handleLogin (Env.sql toyGenerate toyCompare)
        ⟨"POST", some ⟨"alice", "secret123"⟩⟩ loginWorld).1 = .json countingToken 86400 ∧
    (86400 : Int) * Second = sessionTTL ∧
    (handleLogin (Env.sql toyGenerate toyCompare)
        ⟨"POST", some ⟨"alice", "secret123"⟩⟩ loginWorld).2.1.db.sessions
      = [⟨"1", "20230101120000", countingToken, fixedTime.Add Hour,
          (fixedTime.Add Hour).Add (86400 * Second)⟩] :=
  ⟨rfl, (handleLogin_lifetime (Env.sql toyGenerate toyCompare) rfl
    ⟨"POST", some ⟨"alice", "secret123"⟩⟩ loginWorld countingToken 86400 rfl).2.1, rfl⟩

/-! ### Session tokens -/

theorem encode_length (src : List Byte) : (hex.encode src).length = 2 * src.length := by
  induction src with
  | nil => rfl
  | cons v rest ih => simp [hex.encode, ih]; omega

set_option maxRecDepth 100000 in
theorem encode_byte_in_table : ∀ v : Byte,
    hex.hextable.getD (v.val >>> 4) '0' ∈ hex.hextable ∧
    hex.hextable.getD (v.val &&& 0x0f) '0' ∈ hex.hextable := by
  decide

set_option maxRecDepth 100000 in
theorem decode_byte : ∀ v : Byte,
    hex.fromHexChar (hex.hextable.getD (v.val >>> 4) '0') = some (v.val >>> 4) ∧
    hex.fromHexChar (hex.hextable.getD (v.val &&& 0x0f) '0') = some (v.val &&& 0x0f) ∧
    (Fin.ofNat ((v.val >>> 4) <<< 4 ||| (v.val &&& 0x0f)) : Byte) = v := by
  decide

theorem encode_in_table (src : List Byte) : ∀ c ∈ hex.encode src, c ∈ hex.hextable := by
  induction src with
  | nil => intro c hc; cases hc
  | cons v rest ih =>
    intro c hc
    simp only [hex.encode, List.mem_cons] at hc
    rcases hc with hc | hc | hc
    · rw [hc]; exact (encode_byte_in_table v).1
    · rw [hc]; exact (encode_byte_in_table v).2
    · exact ih c hc

theorem decode_encode (src : List Byte) : hex.decode (hex.encode src) = some src := by
  induction src with
  | nil => rfl
  | cons v rest ih =>
    obtain ⟨h1, h2, h3⟩ := decode_byte v
    simp only [hex.encode, hex.decode, h1, h2, ih, Option.map_some', h3]

theorem EncodeToString_injective (a b : List Byte)
    (h : hex.EncodeToString a = hex.EncodeToString b) : a = b := by
  have hd : hex.encode a = hex.encode b := congrArg String.data h
  have := decode_encode a
  rw [hd, decode_encode b] at this
  exact (Option.some.inj this).symm

/-- C6: when the random source fills the 32-byte buffer with `buf`,
`generateSessionToken` returns, without error, the hex encoding of `buf`: 64
characters, each one of `0123456789abcdef`, that decode back to `buf`;
different buffers give different tokens; and when the source fails with an
error it returns that error and the empty token. -/
theorem generateSessionToken_hex (w : World) :
    (∀ buf, (rand.Read 32 w).1 = .ok buf →
      buf.length = 32 ∧
      (generateSessionToken w).1 = (hex.EncodeToString buf, none) ∧
      (hex.EncodeToString buf).length = 64 ∧
      (∀ c ∈ (hex.EncodeToString buf).data, c ∈ "0123456789abcdef".data) ∧
      hex.DecodeString (hex.EncodeToString buf) = some buf) ∧
    (∀ buf other : List Byte,
      hex.EncodeToString buf = hex.EncodeToString other → buf = other) ∧
    (∀ err, (rand.Read 32 w).1 = .error err →
      (generateSessionToken w).1 = ("", some err)) := by
  refine ⟨?_, EncodeToString_injective, ?_⟩
  · intro buf hb
    have hlen : buf.length = 32 := by
      unfold rand.Read at hb
      cases he : w.entropy w.draws with
      | error e => simp [he] at hb
      | ok f =>
        simp [he] at hb
        rw [← hb]
        simp
    refine ⟨hlen, ?_, ?_, ?_, ?_⟩
    · unfold generateSessionToken
      cases hr : rand.Read 32 w with
      | mk res w1 =>
        rw [hr] at hb
        simp only at hb
        rw [hb]
    · show (hex.encode buf).length = 64
      rw [encode_length, hlen]
    · exact encode_in_table buf
    · exact decode_encode buf
  · intro err hb
    unfold generateSessionToken
    cases hr : rand.Read 32 w with
    | mk res w1 =>
      rw [hr] at hb
      simp only at hb
      rw [hb]

/-- C6 on the source that supplies the bytes 0 to 31: the token is
`000102...1f`. -/
theorem generateSessionToken_hex_witness :
    (rand.Read 32 loginWorld).1 = .ok ((List.range 32).map (fun i => Fin.ofNat i)) ∧
    (generateSessionToken loginWorld).1 = (countingToken, none) ∧
    countingToken.length = 64 :=
  ⟨rfl, ((generateSessionToken_hex loginWorld).1 _ rfl).2.1,
    ((generateSessionToken_hex loginWorld).1 ((List.range 32).map (fun i => Fin.ofNat i))
      rfl).2.2.1⟩

/-! ### Input validation -/

/-- C7: for a POST request whose decoded username or password is empty, both
handlers answer `http.Error` with status 400 and stop there: the world is the
one they received (no store was touched, no random bytes were drawn, the
clock was not read) and the list of calls is empty (no hashing, no store
call, no token generation), whatever the collaborators are. -/
theorem empty_fields_rejected_first (env : Env) (r : Request) (req : Req) (w : World)
    (hm : r.Method = "POST") (hb : r.Body = some req)
    (h : req.Username = "" ∨ req.Password = "") :
    handleRegister env r w
      = (.error "Username and password are required" StatusBadRequest, w, []) ∧
    handleLogin env r w
      = (.error "Username and password are required" StatusBadRequest, w, []) ∧
    (handleRegister env r w).1.status = 400 ∧ (handleLogin env r w).1.status = 400 := by
  have e1 : handleRegister env r w
      = (.error "Username and password are required" StatusBadRequest, w, []) := by
    simp [handleRegister, hm, hb, h]
  have e2 : handleLogin env r w
      = (.error "Username and password are required" StatusBadRequest, w, []) := by
    simp [handleLogin, hm, hb, h]
  refine ⟨e1, e2, ?_, ?_⟩
  · rw [e1]; rfl
  · rw [e2]; rfl

/-- C7 on a request with an empty password. -/
theorem empty_fields_rejected_first_witness :
    ((⟨"alice", ""⟩ : Req).Username = "" ∨ (⟨"alice", ""⟩ : Req).Password = "") ∧
    (handleRegister (Env.sql toyGenerate toyCompare) ⟨"POST", some ⟨"alice", ""⟩⟩ loginWorld).2.2
      = [] ∧
    (handleLogin (Env.sql toyGenerate toyCompare) ⟨"POST", some ⟨"alice", ""⟩⟩ loginWorld).2.2
      = [] :=
  ⟨Or.inr rfl,
    congrArg (fun x => x.2.2) (empty_fields_rejected_first (Env.sql toyGenerate toyCompare)
      ⟨"POST", some ⟨"alice", ""⟩⟩ ⟨"alice", ""⟩ loginWorld rfl rfl (Or.inr rfl)).1,
    congrArg (fun x => x.2.2) (empty_fields_rejected_first (Env.sql toyGenerate toyCompare)
      ⟨"POST", some ⟨"alice", ""⟩⟩ ⟨"alice", ""⟩ loginWorld rfl rfl (Or.inr rfl)).2.1⟩

/-! ### The user store -/

theorem countP_eq_zero_iff_absent (users : List user.Row) (id : String) :
    ((users.countP (fun r => r.id == id) : Nat) : Int) = 0 ↔ ∀ r ∈ users, r.id ≠ id := by
  rw [Int.natCast_eq_zero, List.countP_eq_zero]
  simp

theorem UpdateLastSeen_shape (id : String) (lastSeen : Time) (w : World) :
    (∃ msg, (w.db.updateLastSeen lastSeen id).1 = .error (.driver msg) ∧
      (user.SQLStore.UpdateLastSeen id lastSeen w).1 = some (.driver msg) ∧
      w.db.pending = some msg) ∨
    (∃ msg, (w.db.updateLastSeen lastSeen id).1 = .ok ⟨.error (.driver msg)⟩ ∧
      (user.SQLStore.UpdateLastSeen id lastSeen w).1 = some (.driver msg) ∧
      w.db.rowsFault = some msg) ∨
    (∃ rows : Int, (w.db.updateLastSeen lastSeen id).1 = .ok ⟨.ok rows⟩ ∧
      (user.SQLStore.UpdateLastSeen id lastSeen w).1
        = (if rows = 0 then some Error.ErrUserNotFound else none) ∧
      0 ≤ rows ∧ (rows = 0 ↔ ∀ r ∈ w.db.users, r.id ≠ id)) := by
  unfold user.SQLStore.UpdateLastSeen DB.updateLastSeen
  cases hp : w.db.pending with
  | some msg => exact Or.inl ⟨msg, rfl, rfl, rfl⟩
  | none =>
    cases hr : w.db.rowsFault with
    | some msg => exact Or.inr (Or.inl ⟨msg, rfl, rfl, rfl⟩)
    | none =>
      refine Or.inr (Or.inr ⟨((w.db.users.countP (fun r => r.id == id) : Nat) : Int), rfl, ?_,
        Int.natCast_nonneg _, countP_eq_zero_iff_absent w.db.users id⟩)
      simp only
      split <;> rfl

/-- C8: `UpdateLastSeen` returns `ErrUserNotFound` exactly when the update
executes without error and reports zero affected rows, which on a connection
that answers and reports counts is when no user has the id; it returns `nil`
exactly when the update reports at least one affected row; and it returns an
execution error or an affected-row-count error as it is. -/
theorem UpdateLastSeen_outcomes (id : String) (lastSeen : Time) (w : World) :
    ((user.SQLStore.UpdateLastSeen id lastSeen w).1 = some Error.ErrUserNotFound ↔
      ∃ result, (w.db.updateLastSeen lastSeen id).1 = .ok result ∧
        result.RowsAffected = .ok 0) ∧
    ((user.SQLStore.UpdateLastSeen id lastSeen w).1 = none ↔
      ∃ result rows, (w.db.updateLastSeen lastSeen id).1 = .ok result ∧
        result.RowsAffected = .ok rows ∧ 1 ≤ rows) ∧
    (∀ err, (w.db.updateLastSeen lastSeen id).1 = .error err →
      (user.SQLStore.UpdateLastSeen id lastSeen w).1 = some err) ∧
    (∀ result err, (w.db.updateLastSeen lastSeen id).1 = .ok result →
      result.RowsAffected = .error err →
      (user.SQLStore.UpdateLastSeen id lastSeen w).1 = some err) ∧
    (w.db.pending = none → w.db.rowsFault = none →
      ((user.SQLStore.UpdateLastSeen id lastSeen w).1 = some Error.ErrUserNotFound ↔
        ∀ r ∈ w.db.users, r.id ≠ id)) := by
  rcases UpdateLastSeen_shape id lastSeen w with ⟨msg, he, hr, hp⟩ | ⟨msg, he, hr, hf⟩ |
    ⟨rows, he, hr, hpos, hz⟩
  · rw [he, hr]
    refine ⟨?_, ?_, ?_, ?_, ?_⟩
    · constructor
      · intro h; cases h
      · rintro ⟨result, h, _⟩; cases h
    · constructor
      · intro h; cases h
      · rintro ⟨result, rows, h, _⟩; cases h
    · intro err h; cases h; rfl
    · intro result err h; cases h
    · intro h; rw [hp] at h; cases h
  · rw [he, hr]
    refine ⟨?_, ?_, ?_, ?_, ?_⟩
    · constructor
      · intro h; cases h
      · rintro ⟨result, h, h2⟩; cases h; cases h2
    · constructor
      · intro h; cases h
      · rintro ⟨result, rows, h, h2, _⟩; cases h; cases h2
    · intro err h; cases h
    · intro result err h h2; cases h; cases h2; rfl
    · intro _ h; rw [hf] at h; cases h
  · rw [he, hr]
    by_cases h0 : rows = 0
    · rw [if_pos h0]
      refine ⟨?_, ?_, ?_, ?_, ?_⟩
      · exact ⟨fun _ => ⟨_, rfl, by rw [h0]⟩, fun _ => rfl⟩
      · constructor
        · intro h; cases h
        · rintro ⟨result, n, h, h2, h3⟩
          cases h; cases h2; omega
      · intro err h; cases h
      · intro result err h h2; cases h; cases h2
      · intro _ _
        exact ⟨fun _ => hz.mp h0, fun _ => rfl⟩
    · rw [if_neg h0]
      refine ⟨?_, ?_, ?_, ?_, ?_⟩
      · constructor
        · intro h; cases h
        · rintro ⟨result, h, h2⟩
          cases h; cases h2; exact absurd rfl h0
      · exact ⟨fun _ => ⟨_, rows, rfl, rfl, by omega⟩, fun _ => rfl⟩
      · intro err h; cases h
      · intro result err h h2; cases h; cases h2
      · intro _ _
        constructor
        · intro h; cases h
        · intro h; exact absurd (hz.mpr h) h0

/-- C8 on the two cases of `TestUpdateLastSeen`: the stored id is updated, the
unknown id gives `ErrUserNotFound`. -/
theorem UpdateLastSeen_outcomes_witness :
    testWorld.db.pending = none ∧ testWorld.db.rowsFault = none ∧
    (user.SQLStore.UpdateLastSeen "unknown" (fixedTime.Add (24 * Hour)) testWorld).1
      = some Error.ErrUserNotFound ∧
    (user.SQLStore.UpdateLastSeen "user-123" (fixedTime.Add (24 * Hour)) testWorld).1 = none :=
  ⟨rfl, rfl,
    ((UpdateLastSeen_outcomes "unknown" (fixedTime.Add (24 * Hour)) testWorld).2.2.2.2
      rfl rfl).mpr (by decide),
    (UpdateLastSeen_outcomes "user-123" (fixedTime.Add (24 * Hour)) testWorld).2.1.mpr
      ⟨_, 1, rfl, rfl, by decide⟩⟩

theorem scanned_fields (r : user.Row) :
    (user.scanned r).ID = r.id ∧ (user.scanned r).Username = r.username ∧
    (user.scanned r).PasswordHash = r.password_hash ∧
    (user.scanned r).CreatedAt = r.created_at ∧
    (user.scanned r).LastSeen = r.last_seen.getD Time.zero := by
  unfold user.scanned
  cases r.last_seen <;> exact ⟨rfl, rfl, rfl, rfl, rfl⟩

theorem find?_of_exists {α : Type} (p : α → Bool) (l : List α) (h : ∃ a ∈ l, p a = true) :
    ∃ a, l.find? p = some a := by
  cases hf : l.find? p with
  | some a => exact ⟨a, rfl⟩
  | none =>
    rw [List.find?_eq_none] at hf
    obtain ⟨a, ha, hp⟩ := h
    exact absurd hp (hf a ha)

/-- C9: on a connection that answers, `GetByID` (resp. `GetByUsername`) returns
`ErrUserNotFound` and no user when no row has the id (resp. username); when
some row has it, it returns the user scanned from the matching row: `ID`,
`Username`, `PasswordHash` and `CreatedAt` are the row's columns and
`LastSeen` is the row's `last_seen`, or the zero time when that is null. -/
theorem lookups_return_row (key : String) (w : World) (h : w.db.pending = none) :
    ((∀ r ∈ w.db.users, r.id ≠ key) →
      (user.SQLStore.GetByID key w).1 = .error Error.ErrUserNotFound) ∧
    ((∃ r ∈ w.db.users, r.id = key) →
      ∃ r u, r ∈ w.db.users ∧ r.id = key ∧
        w.db.users.find? (fun r => r.id == key) = some r ∧
        (user.SQLStore.GetByID key w).1 = .ok u ∧
        u.ID = r.id ∧ u.Username = r.username ∧ u.PasswordHash = r.password_hash ∧
        u.CreatedAt = r.created_at ∧ u.LastSeen = r.last_seen.getD Time.zero) ∧
    ((∀ r ∈ w.db.users, r.username ≠ key) →
      (user.SQLStore.GetByUsername key w).1 = .error Error.ErrUserNotFound) ∧
    ((∃ r ∈ w.db.users, r.username = key) →
      ∃ r u, r ∈ w.db.users ∧ r.username = key ∧
        w.db.users.find? (fun r => r.username == key) = some r ∧
        (user.SQLStore.GetByUsername key w).1 = .ok u ∧
        u.ID = r.id ∧ u.Username = r.username ∧ u.PasswordHash = r.password_hash ∧
        u.CreatedAt = r.created_at ∧ u.LastSeen = r.last_seen.getD Time.zero) := by
  refine ⟨?_, ?_, ?_, ?_⟩
  · intro hno
    have hf : w.db.users.find? (fun r => r.id == key) = none := by
      rw [List.find?_eq_none]
      intro r hr
      simpa using hno r hr
    simp [user.SQLStore.GetByID, DB.scanUserByID, h, hf]
  · rintro ⟨r0, hr0, hk0⟩
    obtain ⟨r, hf⟩ := find?_of_exists (fun r => r.id == key) w.db.users
      ⟨r0, hr0, by simpa using hk0⟩
    have hk : r.id = key := by simpa using List.find?_some hf
    refine ⟨r, user.scanned r, List.mem_of_find?_eq_some hf, hk, hf, ?_, scanned_fields r⟩
    simp [user.SQLStore.GetByID, DB.scanUserByID, h, hf]
  · intro hno
    have hf : w.db.users.find? (fun r => r.username == key) = none := by
      rw [List.find?_eq_none]
      intro r hr
      simpa using hno r hr
    rw [GetByUsername_absent key w h hf]
  · rintro ⟨r0, hr0, hk0⟩
    obtain ⟨r, hf⟩ := find?_of_exists (fun r => r.username == key) w.db.users
      ⟨r0, hr0, by simpa using hk0⟩
    have hk : r.username = key := by simpa using List.find?_some hf
    refine ⟨r, user.scanned r, List.mem_of_find?_eq_some hf, hk, hf, ?_, scanned_fields r⟩
    rw [GetByUsername_present key w r h hf]

/-- C9 on the cases of `TestGetByID` and `TestGetByUsername`. -/
theorem lookups_return_row_witness :
    testWorld.db.pending = none ∧
    (user.SQLStore.GetByID "unknown" testWorld).1 = .error Error.ErrUserNotFound ∧
    (user.SQLStore.GetByUsername "nobody" testWorld).1 = .error Error.ErrUserNotFound ∧
    (user.SQLStore.GetByID "user-123" testWorld).1
      = .ok ⟨"user-123", "testuser", "hashedsecret", fixedTime, fixedTime⟩ :=
  ⟨rfl, (lookups_return_row "unknown" testWorld rfl).1 (by decide),
    (lookups_return_row "nobody" testWorld rfl).2.2.1 (by decide), rfl⟩

/-! ### User identifiers -/

namespace Time

theorem monthDay_inverse (leap : Bool) (yday : Int) (h0 : 0 ≤ yday) (h365 : yday ≤ 365) :
    ydayOf leap (monthDay leap yday).1 (monthDay leap yday).2 = yday ∧
    1 ≤ (monthDay leap yday).1 ∧ (monthDay leap yday).1 ≤ 12 ∧
    1 ≤ (monthDay leap yday).2 ∧ (monthDay leap yday).2 ≤ 99 := by
  have hl01 : 0 ≤ (if leap then (1 : Int) else 0) ∧ (if leap then (1 : Int) else 0) ≤ 1 := by
    cases leap <;> decide
  generalize hl : (if leap then (1 : Int) else 0) = l at hl01
  by_cases h1 : yday < 31
  · have e : monthDay leap yday = (1, yday + 1) := by
      simp only [monthDay, hl, h1, if_true, if_false]
    rw [e]
    refine ⟨?_, by norm_num, by norm_num, by simp only; omega, by simp only; omega⟩
    simp only [ydayOf, hl]
    norm_num
  · by_cases h2 : yday < 59 + l
    · have e : monthDay leap yday = (2, yday - 30) := by
        simp only [monthDay, hl, h1, h2, if_true, if_false]
      rw [e]
      refine ⟨?_, by norm_num, by norm_num, by simp only; omega, by simp only; omega⟩
      simp only [ydayOf, hl]
      norm_num
    · by_cases h3 : yday < 90 + l
      · have e : monthDay leap yday = (3, yday - 58 - l) := by
          simp only [monthDay, hl, h1, h2, h3, if_true, if_false]
        rw [e]
        refine ⟨?_, by norm_num, by norm_num, by simp only; omega, by simp only; omega⟩
        simp only [ydayOf, hl]
        norm_num
        omega
      · by_cases h4 : yday < 120 + l
        · have e : monthDay leap yday = (4, yday - 89 - l) := by
            simp only [monthDay, hl, h1, h2, h3, h4, if_true, if_false]
          rw [e]
          refine ⟨?_, by norm_num, by norm_num, by simp only; omega, by simp only; omega⟩
          simp only [ydayOf, hl]
          norm_num
          omega
        · by_cases h5 : yday < 151 + l
          · have e : monthDay leap yday = (5, yday - 119 - l) := by
              simp only [monthDay, hl, h1, h2, h3, h4, h5, if_true, if_false]
            rw [e]
            refine ⟨?_, by norm_num, by norm_num, by simp only; omega, by simp only; omega⟩
            simp only [ydayOf, hl]
            norm_num
            omega
          · by_cases h6 : yday < 181 + l
            · have e : monthDay leap yday = (6, yday - 150 - l) := by
                simp only [monthDay, hl, h1, h2, h3, h4, h5, h6, if_true, if_false]
              rw [e]
              refine ⟨?_, by norm_num, by norm_num, by simp only; omega, by simp only; omega⟩
              simp only [ydayOf, hl]
              norm_num
              omega
            · by_cases h7 : yday < 212 + l
              · have e : monthDay leap yday = (7, yday - 180 - l) := by
                  simp only [monthDay, hl, h1, h2, h3, h4, h5, h6, h7, if_true, if_false]
                rw [e]
                refine ⟨?_, by norm_num, by norm_num, by simp only; omega, by simp only; omega⟩
                simp only [ydayOf, hl]
                norm_num
                omega
              · by_cases h8 : yday < 243 + l
                · have e : monthDay leap yday = (8, yday - 211 - l) := by
                    simp only [monthDay, hl, h1, h2, h3, h4, h5, h6, h7, h8, if_true, if_false]
                  rw [e]
                  refine ⟨?_, by norm_num, by norm_num, by simp only; omega, by simp only; omega⟩
                  simp only [ydayOf, hl]
                  norm_num
                  omega
                · by_cases h9 : yday < 273 + l
                  · have e : monthDay leap yday = (9, yday - 242 - l) := by
                      simp only [monthDay, hl, h1, h2, h3, h4, h5, h6, h7, h8, h9, if_true, if_false]
                    rw [e]
                    refine ⟨?_, by norm_num, by norm_num, by simp only; omega, by simp only; omega⟩
                    simp only [ydayOf, hl]
                    norm_num
                    omega
                  · by_cases h10 : yday < 304 + l
                    · have e : monthDay leap yday = (10, yday - 272 - l) := by
                        simp only [monthDay, hl, h1, h2, h3, h4, h5, h6, h7, h8, h9, h10, if_true, if_false]
                      rw [e]
                      refine ⟨?_, by norm_num, by norm_num, by simp only; omega, by simp only; omega⟩
                      simp only [ydayOf, hl]
                      norm_num
                      omega
                    · by_cases h11 : yday < 334 + l
                      · have e : monthDay leap yday = (11, yday - 303 - l) := by
                          simp only [monthDay, hl, h1, h2, h3, h4, h5, h6, h7, h8, h9, h10, h11, if_true, if_false]
                        rw [e]
                        refine ⟨?_, by norm_num, by norm_num, by simp only; omega, by simp only; omega⟩
                        simp only [ydayOf, hl]
                        norm_num
                        omega
                      · have e : monthDay leap yday = (12, yday - 333 - l) := by
                          simp only [monthDay, hl, h1, h2, h3, h4, h5, h6, h7, h8, h9, h10, h11, if_true, if_false]
                        rw [e]
                        refine ⟨?_, by norm_num, by norm_num, by simp only; omega, by simp only; omega⟩
                        simp only [ydayOf, hl]
                        norm_num
                        omega

theorem daysOf_yearDay (days : Int) : daysOf (yearDay days).1 (yearDay days).2 = days := by
  unfold yearDay daysOf
  simp only
  generalize hq : days / 146097 = q
  generalize hd : days % 146097 = d
  have hdays : days = 146097 * q + d := by omega
  have hd0 : 0 ≤ d ∧ d < 146097 := by omega
  generalize hn100 : min (d / 36524) 3 = n100
  have h100 : 0 ≤ n100 ∧ n100 ≤ 3 ∧ 0 ≤ d - 36524 * n100 ∧ d - 36524 * n100 ≤ 36524 := by
    omega
  generalize hd2 : d - 36524 * n100 = d2 at h100 ⊢
  generalize hn4 : d2 / 1461 = n4
  have h4 : 0 ≤ n4 ∧ n4 ≤ 24 ∧ 0 ≤ d2 - 1461 * n4 ∧ d2 - 1461 * n4 ≤ 1460 := by omega
  generalize hd3 : d2 - 1461 * n4 = d3 at h4 ⊢
  generalize hn1 : min (d3 / 365) 3 = n1
  have h1 : 0 ≤ n1 ∧ n1 ≤ 3 := by omega
  have e4 : (400 * q + 100 * n100 + 4 * n4 + n1 + 1 - 1) / 4 = 100 * q + 25 * n100 + n4 := by
    omega
  have e100 : (400 * q + 100 * n100 + 4 * n4 + n1 + 1 - 1) / 100 = 4 * q + n100 := by
    omega
  have e400 : (400 * q + 100 * n100 + 4 * n4 + n1 + 1 - 1) / 400 = q := by
    omega
  rw [e4, e100, e400]
  omega

theorem yearDay_bounds (days : Int) (h0 : 0 ≤ days) (h1 : days < 3652059) :
    1 ≤ (yearDay days).1 ∧ (yearDay days).1 ≤ 9999 ∧
    0 ≤ (yearDay days).2 ∧ (yearDay days).2 ≤ 365 := by
  unfold yearDay
  simp only
  generalize hq : days / 146097 = q
  generalize hd : days % 146097 = d
  have hdays : days = 146097 * q + d := by omega
  have hd0 : 0 ≤ d ∧ d < 146097 := by omega
  have hq0 : 0 ≤ q ∧ q ≤ 24 := by omega
  generalize hn100 : min (d / 36524) 3 = n100
  have h100 : 0 ≤ n100 ∧ n100 ≤ 3 ∧ 0 ≤ d - 36524 * n100 ∧ d - 36524 * n100 ≤ 36524 ∧
      (n100 = 3 → d - 36524 * n100 = d - 109572) := by
    omega
  generalize hd2 : d - 36524 * n100 = d2 at h100 ⊢
  generalize hn4 : d2 / 1461 = n4
  have h4 : 0 ≤ n4 ∧ n4 ≤ 24 ∧ 0 ≤ d2 - 1461 * n4 ∧ d2 - 1461 * n4 ≤ 1460 := by omega
  generalize hd3 : d2 - 1461 * n4 = d3 at h4 ⊢
  generalize hn1 : min (d3 / 365) 3 = n1
  have h1 : 0 ≤ n1 ∧ n1 ≤ 3 ∧ 0 ≤ d3 - 365 * n1 ∧ d3 - 365 * n1 ≤ 365 := by omega
  refine ⟨by omega, ?_, h1.2.2.1, h1.2.2.2⟩
  by_cases hq24 : q = 24
  · have : d < 145731 := by omega
    by_cases h3 : n100 = 3
    · have : d2 < 36159 := by omega
      by_cases h24 : n4 = 24
      · have : d3 < 1095 := by omega
        omega
      · omega
    · omega
  · omega

theorem digitChar_inj (a b : Nat) (h : digitChar a = digitChar b) : a % 10 = b % 10 := by
  have key : ∀ i j : Fin 10, Char.ofNat (48 + i.val) = Char.ofNat (48 + j.val) → i = j := by
    decide
  have := key ⟨a % 10, Nat.mod_lt _ (by decide)⟩ ⟨b % 10, Nat.mod_lt _ (by decide)⟩ h
  exact congrArg Fin.val this

theorem appendInt_of_range (x : Int) (width : Nat) (h0 : 0 ≤ x)
    (h1 : x.natAbs < 10 ^ width) : appendInt x width = fixedDigits width x.natAbs := by
  simp [appendInt, not_lt.mpr h0, h1]

theorem stamp_inj (y m d h n s y2 m2 d2 h2 n2 s2 : Nat)
    (by1 : y < 10000) (bm1 : m < 100) (bd1 : d < 100) (bh1 : h < 100) (bn1 : n < 100)
    (bs1 : s < 100) (by2 : y2 < 10000) (bm2 : m2 < 100) (bd2 : d2 < 100) (bh2 : h2 < 100)
    (bn2 : n2 < 100) (bs2 : s2 < 100)
    (e : fixedDigits 4 y ++ fixedDigits 2 m ++ fixedDigits 2 d ++ fixedDigits 2 h ++
          fixedDigits 2 n ++ fixedDigits 2 s
        = fixedDigits 4 y2 ++ fixedDigits 2 m2 ++ fixedDigits 2 d2 ++ fixedDigits 2 h2 ++
          fixedDigits 2 n2 ++ fixedDigits 2 s2) :
    y = y2 ∧ m = m2 ∧ d = d2 ∧ h = h2 ∧ n = n2 ∧ s = s2 := by
  simp only [fixedDigits, List.nil_append, List.cons_append, List.append_assoc,
    List.cons.injEq, and_true] at e
  obtain ⟨e1, e2, e3, e4, e5, e6, e7, e8, e9, e10, e11, e12, e13, e14⟩ := e
  have := digitChar_inj _ _ e1
  have := digitChar_inj _ _ e2
  have := digitChar_inj _ _ e3
  have := digitChar_inj _ _ e4
  have := digitChar_inj _ _ e5
  have := digitChar_inj _ _ e6
  have := digitChar_inj _ _ e7
  have := digitChar_inj _ _ e8
  have := digitChar_inj _ _ e9
  have := digitChar_inj _ _ e10
  have := digitChar_inj _ _ e11
  have := digitChar_inj _ _ e12
  have := digitChar_inj _ _ e13
  have := digitChar_inj _ _ e14
  refine ⟨?_, ?_, ?_, ?_, ?_, ?_⟩ <;> omega

end Time

namespace Time

theorem fields_eq (t : Time) :
    t.fields =
      ((yearDay (t.localSeconds / 86400)).1,
       (monthDay (isLeap (yearDay (t.localSeconds / 86400)).1)
          (yearDay (t.localSeconds / 86400)).2).1,
       (monthDay (isLeap (yearDay (t.localSeconds / 86400)).1)
          (yearDay (t.localSeconds / 86400)).2).2,
       t.localSeconds % 86400 / 3600, t.localSeconds % 86400 % 3600 / 60,
       t.localSeconds % 86400 % 60) := rfl

theorem Format_eq_iff (t1 t2 : Time)
    (r1 : 0 ≤ t1.localSeconds ∧ t1.localSeconds < 315537897600)
    (r2 : 0 ≤ t2.localSeconds ∧ t2.localSeconds < 315537897600) :
    t1.Format = t2.Format ↔ t1.localSeconds = t2.localSeconds := by
  constructor
  · intro e
    unfold Format at e
    rw [fields_eq t1, fields_eq t2] at e
    have e := congrArg String.data e
    simp only at e
    generalize hD1 : t1.localSeconds / 86400 = D1 at e
    generalize hS1 : t1.localSeconds % 86400 = S1 at e
    generalize hD2 : t2.localSeconds / 86400 = D2 at e
    generalize hS2 : t2.localSeconds % 86400 = S2 at e
    have hy1 := yearDay_bounds D1 (by omega) (by omega)
    have hy2 := yearDay_bounds D2 (by omega) (by omega)
    have hi1 := daysOf_yearDay D1
    have hi2 := daysOf_yearDay D2
    generalize yearDay D1 = p1 at e hy1 hi1
    generalize yearDay D2 = p2 at e hy2 hi2
    obtain ⟨y1, yd1⟩ := p1
    obtain ⟨y2, yd2⟩ := p2
    simp only at e hy1 hy2 hi1 hi2
    have hm1 := monthDay_inverse (isLeap y1) yd1 hy1.2.2.1 hy1.2.2.2
    have hm2 := monthDay_inverse (isLeap y2) yd2 hy2.2.2.1 hy2.2.2.2
    generalize monthDay (isLeap y1) yd1 = q1 at e hm1
    generalize monthDay (isLeap y2) yd2 = q2 at e hm2
    obtain ⟨mo1, d1⟩ := q1
    obtain ⟨mo2, d2⟩ := q2
    simp only at e hm1 hm2
    rw [appendInt_of_range y1 4 (by omega) (by omega),
      appendInt_of_range mo1 2 (by omega) (by omega),
      appendInt_of_range d1 2 (by omega) (by omega),
      appendInt_of_range (S1 / 3600) 2 (by omega) (by omega),
      appendInt_of_range (S1 % 3600 / 60) 2 (by omega) (by omega),
      appendInt_of_range (S1 % 60) 2 (by omega) (by omega),
      appendInt_of_range y2 4 (by omega) (by omega),
      appendInt_of_range mo2 2 (by omega) (by omega),
      appendInt_of_range d2 2 (by omega) (by omega),
      appendInt_of_range (S2 / 3600) 2 (by omega) (by omega),
      appendInt_of_range (S2 % 3600 / 60) 2 (by omega) (by omega),
      appendInt_of_range (S2 % 60) 2 (by omega) (by omega)] at e
    obtain ⟨ey, em, ed, eh, en, es⟩ := stamp_inj _ _ _ _ _ _ _ _ _ _ _ _
      (by omega) (by omega) (by omega) (by omega) (by omega) (by omega)
      (by omega) (by omega) (by omega) (by omega) (by omega) (by omega) e
    have hy : y1 = y2 := by omega
    have hm : mo1 = mo2 := by omega
    have hd : d1 = d2 := by omega
    subst hy hm hd
    have hyd : yd1 = yd2 := by rw [← hm1.1, ← hm2.1]
    subst hyd
    have hD : D1 = D2 := by rw [← hi1, ← hi2]
    omega
  · intro e
    unfold Format fields
    rw [e]

end Time

theorem handleRegister_calls (env : Env) (r : Request) (req : Req) (w : World)
    (hashed : String) (hm : r.Method = "POST") (hb : r.Body = some req)
    (hn : req.Username ≠ "") (hp : req.Password ≠ "")
    (hg : env.GenerateFromPassword req.Password DefaultCost = .ok hashed) :
    (handleRegister env r w).2.2 =
      [.GenerateFromPassword req.Password DefaultCost,
       .userCreate ⟨(generateID w).1, req.Username, hashed,
         w.clock (w.ticks + 1), w.clock (w.ticks + 1 + 1)⟩] := by
  unfold handleRegister
  simp only [hm, hb, hn, hp, hg, ne_eq, not_true_eq_false, if_false, or_self]
  split
  · split <;> rfl
  · rfl

/-- C10, the code at the failing input: two calls of `generateID` at two
different clock readings within one second return the same id,
`20230101120000`; and whatever the database holds, a registration of `alice`
whose `generateID` reads the clock at 12:00:00.0 and a registration of `bob`
whose `generateID` reads it at 12:00:00.3 both hand the user store a user
with that id. -/
theorem generateID_repeats_within_second :
    (generateID burstWorld).1 = "20230101120000" ∧
    (generateID (generateID burstWorld).2).1 = "20230101120000" ∧
    burstWorld.clock burstWorld.ticks
      ≠ (generateID burstWorld).2.clock (generateID burstWorld).2.ticks ∧
    (∀ db : DB,
      (handleRegister (Env.sql toyGenerate toyCompare)
          ⟨"POST", some ⟨"alice", "secret123"⟩⟩ { burstWorld with db := db }).2.2.getLast?
        = some (.userCreate ⟨"20230101120000", "alice", "hash:secret123",
            burstWorld.clock 1, burstWorld.clock 2⟩) ∧
      (handleRegister (Env.sql toyGenerate toyCompare)
          ⟨"POST", some ⟨"bob", "hunter2"⟩⟩
          { burstWorld with db := db, ticks := 3 }).2.2.getLast?
        = some (.userCreate ⟨"20230101120000", "bob", "hash:hunter2",
            burstWorld.clock 4, burstWorld.clock 5⟩)) ∧
    burstWorld.clock 0 ≠ burstWorld.clock 3 := by
  refine ⟨rfl, rfl, by decide, ?_, by decide⟩
  intro db
  have id0 : (generateID { burstWorld with db := db }).1 = "20230101120000" :=
    (rfl : (generateID burstWorld).1 = "20230101120000")
  have id3 : (generateID { burstWorld with db := db, ticks := 3 }).1 = "20230101120000" :=
    (rfl : (generateID { burstWorld with ticks := 3 }).1 = "20230101120000")
  constructor
  · rw [handleRegister_calls (Env.sql toyGenerate toyCompare) _ ⟨"alice", "secret123"⟩
      { burstWorld with db := db } "hash:secret123" rfl rfl (by decide) (by decide) rfl, id0]
    rfl
  · rw [handleRegister_calls (Env.sql toyGenerate toyCompare) _ ⟨"bob", "hunter2"⟩
      { burstWorld with db := db, ticks := 3 } "hash:hunter2" rfl rfl (by decide) (by decide)
      rfl, id3]
    rfl

/-- Across seconds the ids do differ: for two clock readings presented under
the same UTC offset, in the years 1 to 9999, `generateID` returns different
ids exactly when the readings fall in different seconds. -/
theorem generateID_distinct_iff (w1 w2 : World)
    (hoff : (w1.clock w1.ticks).offset = (w2.clock w2.ticks).offset)
    (r1 : 0 ≤ (w1.clock w1.ticks).localSeconds ∧
      (w1.clock w1.ticks).localSeconds < 315537897600)
    (r2 : 0 ≤ (w2.clock w2.ticks).localSeconds ∧
      (w2.clock w2.ticks).localSeconds < 315537897600) :
    (generateID w1).1 ≠ (generateID w2).1 ↔
      (w1.clock w1.ticks).nsec / 1000000000 ≠ (w2.clock w2.ticks).nsec / 1000000000 := by
  have key := Time.Format_eq_iff (w1.clock w1.ticks) (w2.clock w2.ticks) r1 r2
  have hs : (w1.clock w1.ticks).localSeconds = (w2.clock w2.ticks).localSeconds ↔
      (w1.clock w1.ticks).nsec / 1000000000 = (w2.clock w2.ticks).nsec / 1000000000 := by
    unfold Time.localSeconds
    rw [hoff]
    constructor <;> intro h <;> omega
  show (w1.clock w1.ticks).Format ≠ (w2.clock w2.ticks).Format ↔ _
  rw [Ne, Ne, key, hs]

/-- Two readings an hour apart give different ids. -/
theorem generateID_distinct_iff_witness :
    (0 ≤ (testWorld.clock testWorld.ticks).localSeconds ∧
      (testWorld.clock testWorld.ticks).localSeconds < 315537897600) ∧
    (0 ≤ (aliceWorld.clock aliceWorld.ticks).localSeconds ∧
      (aliceWorld.clock aliceWorld.ticks).localSeconds < 315537897600) ∧
    (generateID testWorld).1 ≠ (generateID aliceWorld).1 :=
  ⟨by decide, by decide,
    (generateID_distinct_iff testWorld aliceWorld rfl (by decide) (by decide)).mpr (by decide)⟩

/-! ### Failures during login -/

/-- C11: for a POST login with non-empty fields, whatever the stores are, a
user lookup that fails with an error other than `ErrUserNotFound`, a token
generation that fails after the password verified, and a `sessionStore.Create`
that fails after the password verified each get `http.Error` with status 500:
the status is not 401 and the response is not the JSON object with a token. -/
theorem handleLogin_storage_failure_is_internal (env : Env) (n p : String) (w : World)
    (hn : n ≠ "") (hp : p ≠ "") :
    (∀ err w1, env.userStore.GetByUsername n w = (.error err, w1) →
      err ≠ Error.ErrUserNotFound →
      (handleLogin env ⟨"POST", some ⟨n, p⟩⟩ w).1
        = .error "Internal server error" StatusInternalServerError) ∧
    (∀ u w1 tok err w2, env.userStore.GetByUsername n w = (.ok u, w1) →
      env.CompareHashAndPassword u.PasswordHash p = none →
      generateSessionToken w1 = ((tok, some err), w2) →
      (handleLogin env ⟨"POST", some ⟨n, p⟩⟩ w).1
        = .error "Failed to create session" StatusInternalServerError) ∧
    (∀ u w1 tok w2 err w4, env.userStore.GetByUsername n w = (.ok u, w1) →
      env.CompareHashAndPassword u.PasswordHash p = none →
      generateSessionToken w1 = ((tok, none), w2) →
      env.sessionStore.Create
          ⟨"", u.ID, tok, (time.Now w2).1, (time.Now w2).1.Add sessionTTL⟩ (time.Now w2).2
        = (some err, w4) →
      (handleLogin env ⟨"POST", some ⟨n, p⟩⟩ w).1
        = .error "Failed to create session" StatusInternalServerError) ∧
    (∀ msg, (Response.error msg StatusInternalServerError).status = 500 ∧
      (Response.error msg StatusInternalServerError).status ≠ StatusUnauthorized ∧
      ∀ tok expires_in, Response.error msg StatusInternalServerError
        ≠ .json tok expires_in) := by
  refine ⟨?_, ?_, ?_, ?_⟩
  · intro err w1 hl hne
    simp [handleLogin, hn, hp, hl, hne]
  · intro u w1 tok err w2 hl hc hg
    simp [handleLogin, hn, hp, hl, hc, hg]
  · intro u w1 tok w2 err w4 hl hc hg hs
    simp [handleLogin, hn, hp, hl, hc, hg, hs]
  · intro msg
    refine ⟨rfl, ?_, ?_⟩
    · simp [Response.status, StatusInternalServerError, StatusUnauthorized]
    · intro tok expires_in h
      cases h

/-- C11 on three runs of `alice` logging in with her password: the
connection is down at the lookup; the random source is unavailable; the
connection fails at the insert of the session. Each time the answer is 500. -/
theorem handleLogin_storage_failure_is_internal_witness :
    (handleLogin (Env.sql toyGenerate toyCompare)
        ⟨"POST", some ⟨"alice", "secret123"⟩⟩ downWorld).1
      = .error "Internal server error" StatusInternalServerError ∧
    (handleLogin (Env.sql toyGenerate toyCompare)
        ⟨"POST", some ⟨"alice", "secret123"⟩⟩ aliceWorld).1
      = .error "Failed to create session" StatusInternalServerError ∧
    (handleLogin (Env.sql toyGenerate toyCompare)
        ⟨"POST", some ⟨"alice", "secret123"⟩⟩ flakyWorld).1
      = .error "Failed to create session" StatusInternalServerError :=
  ⟨(handleLogin_storage_failure_is_internal (Env.sql toyGenerate toyCompare)
      "alice" "secret123" downWorld (by decide) (by decide)).1
      (.driver "connection refused") _ rfl (by decide),
    (handleLogin_storage_failure_is_internal (Env.sql toyGenerate toyCompare)
      "alice" "secret123" aliceWorld (by decide) (by decide)).2.1
      _ _ "" (.lib "entropy unavailable") _ rfl rfl rfl,
    (handleLogin_storage_failure_is_internal (Env.sql toyGenerate toyCompare)
      "alice" "secret123" flakyWorld (by decide) (by decide)).2.2.1
      _ _ countingToken _ (.driver "connection reset by peer") _ rfl rfl rfl rfl⟩

/-! ### Sessions persisted by a login -/

theorem GetByUsername_ok_row (username : String) (w w1 : World) (u : user.User)
    (h : user.SQLStore.GetByUsername username w = (.ok u, w1)) :
    ∃ row, w.db.users.find? (fun r => r.username == username) = some row ∧
      u = user.scanned row ∧ w1 = { w with db := w.db.sent } := by
  unfold user.SQLStore.GetByUsername DB.scanUserByUsername at h
  cases hp : w.db.pending with
  | some msg => simp [hp] at h
  | none =>
    cases hf : w.db.users.find? (fun r => r.username == username) with
    | none => simp [hp, hf] at h
    | some row =>
      simp [hp, hf] at h
      exact ⟨row, rfl, h.1.symm, h.2.symm⟩

theorem GetByUsername_sessions (username : String) (w : World) :
    (user.SQLStore.GetByUsername username w).2.db.sessions = w.db.sessions := by
  rw [GetByUsername_world]
  rfl

theorem insertSession_sessions (db : DB) (userID token : String) (createdAt expiresAt : Time) :
    ((db.insertSession userID token createdAt expiresAt).1 ≠ none ∧
      (db.insertSession userID token createdAt expiresAt).2.sessions = db.sessions) ∨
    ((db.insertSession userID token createdAt expiresAt).1 = none ∧
      ∃ row, (db.insertSession userID token createdAt expiresAt).2.sessions
          = db.sessions ++ [row] ∧ row.UserID = userID ∧ row.Token = token) := by
  unfold DB.insertSession
  cases hp : db.pending with
  | some msg => exact Or.inl ⟨by simp, rfl⟩
  | none =>
    by_cases hd : db.sessions.any (fun r => r.Token == token) = true
    · simp only [hd, if_true]
      exact Or.inl ⟨by simp, rfl⟩
    · simp only [hd]
      exact Or.inr ⟨rfl, _, rfl, rfl, rfl⟩

theorem session_Create_insert (sess : session.Session) (w : World) :
    ∃ createdAt,
      (session.SQLStore.Create sess w).1
        = (w.db.insertSession sess.UserID sess.Token createdAt sess.ExpiresAt).1 ∧
      (session.SQLStore.Create sess w).2.db
        = (w.db.insertSession sess.UserID sess.Token createdAt sess.ExpiresAt).2 := by
  unfold session.SQLStore.Create
  by_cases hz : sess.CreatedAt.IsZero = true
  · simp only [hz, if_true]
    exact ⟨_, rfl, rfl⟩
  · simp only [hz]
    exact ⟨_, rfl, rfl⟩

theorem session_Create_sessions (sess : session.Session) (w : World) :
    ((session.SQLStore.Create sess w).1 ≠ none ∧
      (session.SQLStore.Create sess w).2.db.sessions = w.db.sessions) ∨
    ((session.SQLStore.Create sess w).1 = none ∧
      ∃ row, (session.SQLStore.Create sess w).2.db.sessions = w.db.sessions ++ [row] ∧
        row.UserID = sess.UserID ∧ row.Token = sess.Token) := by
  obtain ⟨createdAt, h1, h2⟩ := session_Create_insert sess w
  rw [h1, h2]
  exact insertSession_sessions w.db sess.UserID sess.Token createdAt sess.ExpiresAt

theorem generateSessionToken_db (w : World) (db : DB) :
    (generateSessionToken { w with db := db }).1 = (generateSessionToken w).1 := by
  unfold generateSessionToken rand.Read
  simp only
  cases w.entropy w.draws <;> rfl

/-- C12: with the SQL stores, after `handleLogin` the table of sessions is
either the one it was, or that table with exactly one row appended; the
latter only when the method is POST, the body decoded, both fields are
non-empty, the user's row was found, the password verified against that row's
hash and a token was generated, and then the new row carries the id of that
user and the token, which is the token of the JSON response. -/
theorem handleLogin_persists_at_most_one (env : Env)
    (hu : env.userStore = user.NewSQLStore) (hs : env.sessionStore = session.NewSQLStore)
    (r : Request) (w : World) :
    (handleLogin env r w).2.1.db.sessions = w.db.sessions ∨
    ∃ req urow tok row,
      r.Method = "POST" ∧ r.Body = some req ∧ req.Username ≠ "" ∧ req.Password ≠ "" ∧
      w.db.users.find? (fun x => x.username == req.Username) = some urow ∧
      env.CompareHashAndPassword urow.password_hash req.Password = none ∧
      (generateSessionToken w).1 = (tok, none) ∧
      (handleLogin env r w).2.1.db.sessions = w.db.sessions ++ [row] ∧
      row.UserID = urow.id ∧ row.Token = tok ∧
      (handleLogin env r w).1 = .json tok 86400 := by
  by_cases hm : r.Method = "POST"
  · cases hb : r.Body with
    | none => left; simp [handleLogin, hm, hb]
    | some req =>
      by_cases he : req.Username = "" ∨ req.Password = ""
      · left; simp [handleLogin, hm, hb, he]
      · have hw1 := GetByUsername_world req.Username w
        cases hl : user.SQLStore.GetByUsername req.Username w with
        | mk res w1 =>
          rw [hl] at hw1
          simp only at hw1
          cases res with
          | error err =>
            left
            by_cases hx : err = Error.ErrUserNotFound <;>
              simp [handleLogin, hm, hb, he, hu, user.NewSQLStore, hl, hx, hw1, DB.sent]
          | ok u =>
            obtain ⟨urow, hfind, hscan, -⟩ := GetByUsername_ok_row req.Username w w1 u hl
            cases hc : env.CompareHashAndPassword u.PasswordHash req.Password with
            | some e =>
              left
              simp [handleLogin, hm, hb, he, hu, user.NewSQLStore, hl, hc, hw1, DB.sent]
            | none =>
              have hw2 := generateSessionToken_world w1
              have hgd : (generateSessionToken w1).1 = (generateSessionToken w).1 := by
                rw [hw1]; exact generateSessionToken_db w w.db.sent
              cases hg : generateSessionToken w1 with
              | mk tk w2 =>
                rw [hg] at hw2 hgd
                simp only at hw2 hgd
                obtain ⟨tok, terr⟩ := tk
                cases terr with
                | some e =>
                  left
                  have hout : (handleLogin env r w).2.1 = w2 := by
                    simp [handleLogin, hm, hb, he, hu, user.NewSQLStore, hl, hc, hg]
                  rw [hout, hw2, hw1]
                  rfl
                | none =>
                  have hcs := session_Create_sessions
                    ⟨"", u.ID, tok, (time.Now w2).1, (time.Now w2).1.Add sessionTTL⟩
                    (time.Now w2).2
                  have hw3 : (time.Now w2).2.db.sessions = w.db.sessions := by
                    rw [hw2, hw1]; rfl
                  rw [hw3] at hcs
                  cases hsc : session.SQLStore.Create
                      ⟨"", u.ID, tok, (time.Now w2).1, (time.Now w2).1.Add sessionTTL⟩
                      (time.Now w2).2 with
                  | mk cerr w4 =>
                    rw [hsc] at hcs
                    simp only at hcs
                    have hout : handleLogin env r w =
                        (match cerr with
                          | some _ => Response.error "Failed to create session"
                              StatusInternalServerError
                          | none => Response.json tok (Time.secondsInt sessionTTL),
                         w4,
                         [.userGetByUsername req.Username,
                          .CompareHashAndPassword u.PasswordHash req.Password,
                          .generateSessionToken,
                          .sessionCreate
                            ⟨"", u.ID, tok, (time.Now w2).1, (time.Now w2).1.Add sessionTTL⟩]) := by
                      cases cerr <;>
                        simp [handleLogin, hm, hb, he, hu, hs, user.NewSQLStore,
                          session.NewSQLStore, hl, hc, hg, hsc]
                    rw [hout]
                    rcases hcs with ⟨-, hsame⟩ | ⟨hnone, row, happ, hrow1, hrow2⟩
                    · left; exact hsame
                    · right
                      subst hnone
                      have hne : req.Username ≠ "" ∧ req.Password ≠ "" := by
                        constructor
                        · intro h; exact he (Or.inl h)
                        · intro h; exact he (Or.inr h)
                      refine ⟨req, urow, tok, row, hm, rfl, hne.1, hne.2, hfind, ?_, hgd.symm,
                        happ, ?_, hrow2, rfl⟩
                      · rw [← scanned_PasswordHash, ← hscan]; exact hc
                      · rw [hrow1, hscan]; exact (scanned_fields urow).1
  · left; simp [handleLogin, hm]

/-- C12 on two logins of `alice` in `loginWorld`: with a wrong password the
table of sessions stays empty; with her password it gets the one row of the
theorem, for her id and with the token of the response. -/
theorem handleLogin_persists_at_most_one_witness :
    (Env.sql toyGenerate toyCompare).userStore = user.NewSQLStore ∧
    (Env.sql toyGenerate toyCompare).sessionStore = session.NewSQLStore ∧
    (handleLogin (Env.sql toyGenerate toyCompare)
        ⟨"POST", some ⟨"alice", "wrong"⟩⟩ loginWorld).2.1.db.sessions = [] ∧
    (handleLogin (Env.sql toyGenerate toyCompare)
        ⟨"POST", some ⟨"alice", "secret123"⟩⟩ loginWorld).2.1.db.sessions
      = [⟨"1", "20230101120000", countingToken, fixedTime.Add Hour,
          (fixedTime.Add Hour).Add sessionTTL⟩] ∧
    ∃ req urow tok row,
      (⟨"POST", some ⟨"alice", "secret123"⟩⟩ : Request).Method = "POST" ∧
      (⟨"POST", some ⟨"alice", "secret123"⟩⟩ : Request).Body = some req ∧
      req.Username ≠ "" ∧ req.Password ≠ "" ∧
      loginWorld.db.users.find? (fun x => x.username == req.Username) = some urow ∧
      (Env.sql toyGenerate toyCompare).CompareHashAndPassword urow.password_hash req.Password
        = none ∧
      (generateSessionToken loginWorld).1 = (tok, none) ∧
      (handleLogin (Env.sql toyGenerate toyCompare)
          ⟨"POST", some ⟨"alice", "secret123"⟩⟩ loginWorld).2.1.db.sessions
        = loginWorld.db.sessions ++ [row] ∧
      row.UserID = urow.id ∧ row.Token = tok ∧
      (handleLogin (Env.sql toyGenerate toyCompare)
          ⟨"POST", some ⟨"alice", "secret123"⟩⟩ loginWorld).1 = .json tok 86400 :=
  ⟨rfl, rfl, rfl, rfl,
    (handleLogin_persists_at_most_one (Env.sql toyGenerate toyCompare) rfl rfl
      ⟨"POST", some ⟨"alice", "secret123"⟩⟩ loginWorld).resolve_left
      (fun h => List.noConfusion h)⟩

end Nexus
